import Mathlib

/-!
# midi2ffxiv: the keystroke tracker and the MIDI output handlers

A shallow embedding of `keystroke.go` (the state tracker `produceKeystroke`,
the idle-release handler `clearModifiers`, the consistency check
`printPressedKeys`) and of the three PUT handlers of `web.go`
(`midiOutputBank`, `midiOutputPatch`, `midiOutputTranspose`).

Conventions of the embedding:

* the receiver `app.keyStatus` is passed and returned explicitly;
* Go `int` is an `Int` kept inside 64 bits by `wrapInt` after each `++`/`--`;
* the calls of `user32.SendInput` are recorded in an `Output` value, and the
  error each call returns is chosen by an arbitrary function of the history;
* a Go `panic` is the `error` case of an `Except`;
* the text written by `log.Println`/`fmt.Println` is not modelled, except for
  the error values printed after a failed `SendInput`.
-/

namespace Midi2ffxiv

/-! ## Package `user32`: constants and structures of the Windows API -/

/-- Modelled from the spec: constant of the package `user32`, which is not among
the sources; the value is the one of the Windows API (`INPUT_KEYBOARD`). -/
def INPUT_KEYBOARD : Nat := 1

/-- Modelled from the spec: constant of the package `user32`, which is not among
the sources; the value is the one of the Windows API (`KEYEVENTF_KEYUP`). -/
def KEYEVENTF_KEYUP : Nat := 0x0002

/-- Modelled from the spec: constant of the package `user32`, which is not among
the sources; the value is the one of the Windows API (`KEYEVENTF_SCANCODE`). -/
def KEYEVENTF_SCANCODE : Nat := 0x0008

/-- Modelled from the spec: constant of the package `user32`, which is not among
the sources; the value is the one of the Windows API (`MAPVK_VK_TO_VSC`). -/
def MAPVK_VK_TO_VSC : Nat := 0

/-- Modelled from the spec: constant of the package `user32`, which is not among
the sources; the value is the one of the Windows API (`VK_SHIFT`). -/
def VK_SHIFT : Nat := 0x10

/-- Modelled from the spec: constant of the package `user32`, which is not among
the sources; the value is the one of the Windows API (`VK_CONTROL`). -/
def VK_CONTROL : Nat := 0x11

/-- Modelled from the spec: constant of the package `user32`, which is not among
the sources; the value is the one of the Windows API (`VK_MENU`, the Alt key). -/
def VK_MENU : Nat := 0x12

/-- The structure `user32.KEYBDINPUT`, with the five fields the code fills. -/
structure KEYBDINPUT where
  WVk : Nat
  WScan : Nat
  DwFlags : Nat
  Time : Nat
  DwExtraInfo : Nat
deriving DecidableEq, Repr

/-- The structure `user32.INPUT_KEYBDINPUT`: one key action. The Go field `Type`
is `Type_` here. -/
structure INPUT_KEYBDINPUT where
  Type_ : Nat
  Ki : KEYBDINPUT
deriving DecidableEq, Repr

/-- What the output collaborator has been asked so far: the argument of every
`user32.SendInput` call, oldest first, and the errors printed by the caller. -/
structure Output where
  calls : List (List INPUT_KEYBDINPUT)
  errors : List String
deriving DecidableEq, Repr

/-- The two functions of the package `user32` that `keystroke.go` calls, taken as
parameters: `MapVirtualKey uCode uMapType` and `SendInput`, whose error (if any)
may depend on all earlier calls and on the argument of this call. -/
structure user32 where
  MapVirtualKey : Nat → Nat → Nat
  SendInput : List (List INPUT_KEYBDINPUT) → List INPUT_KEYBDINPUT → Option String

/-! ## Data model of `keystroke.go` -/

/-- Go `int` on the 64-bit build: the value of an integer expression is reduced
into `[-2^63, 2^63)`. -/
def wrapInt (x : Int) : Int :=
  (x + 9223372036854775808) % 18446744073709551616 - 9223372036854775808

/-- The values a Go `int` variable can hold. -/
def isGoInt (x : Int) : Prop :=
  -9223372036854775808 ≤ x ∧ x ≤ 9223372036854775807

instance (x : Int) : Decidable (isGoInt x) := by
  unfold isGoInt; infer_instance

/-- Modelled from the spec: `*time.Timer` of the Go library, "a single-shot,
resettable deadline". `deadline = some t` when the timer is armed to fire at
time `t`, `none` when it is stopped or has fired. -/
structure Timer where
  deadline : Option Nat
deriving DecidableEq, Repr

/-- `time.NewTimer(d)` called at time `now`. -/
def Timer.NewTimer (now d : Nat) : Timer := { deadline := some (now + d) }

/-- `t.Stop()`. -/
def Timer.Stop (_t : Timer) : Timer := { deadline := none }

/-- `t.Reset(d)` called at time `now`. -/
def Timer.Reset (_t : Timer) (now d : Nat) : Timer := { deadline := some (now + d) }

/-- The struct `keystrokeStatus`. -/
structure keystrokeStatus where
  pressedKeys : Fin 256 → Bool
  pressedKeysCount : Int
  isCtrlDown : Bool
  isAltDown : Bool
  isShiftDown : Bool
  clearModifiersTimer : Timer

/-- Modelled from the spec: one entry of `app.Keybinding`, whose type is declared
outside the sources: "a target key code, and three modifier flags". The key code
indexes `pressedKeys`, an array of 256 entries. -/
structure keybinding where
  VirtualKeyCode : Fin 256
  Ctrl : Bool
  Alt : Bool
  Shift : Bool
deriving DecidableEq, Repr

/-- Modelled from the spec: the fields of `application` that `keystroke.go` reads,
the binding table ("event identifier (0-127)") and the idle duration. -/
structure application where
  Keybinding : Fin 128 → keybinding
  IdleDuration : Nat

/-- Modelled from the spec: `midiMessage`, declared outside the sources: `status`
is `Msg[0]` and `note` is `Msg[1]`, "a logical control (0-127)". -/
structure midiMessage where
  status : Nat
  note : Fin 128
deriving DecidableEq, Repr

/-- The value of the `panic` in `printPressedKeys`: the two numbers of its message. -/
structure Panic where
  counted : Int
  recorded : Int
deriving DecidableEq, Repr

/-- The state created by `processKeystrokes` at time `now`: the zero value of the
struct with `clearModifiersTimer: time.NewTimer(app.IdleDuration)`. -/
def initKeyStatus (app : application) (now : Nat) : keystrokeStatus :=
  { pressedKeys := fun _ => false
    pressedKeysCount := 0
    isCtrlDown := false
    isAltDown := false
    isShiftDown := false
    clearModifiersTimer := Timer.NewTimer now app.IdleDuration }

/-! ## Building key actions -/

/-- The literal `user32.INPUT_KEYBDINPUT{Type: INPUT_KEYBOARD, Ki: KEYBDINPUT{WVk: 0,
WScan: uint16(MapVirtualKey(uint32(vk), MAPVK_VK_TO_VSC)), DwFlags: dwFlags, Time: 0,
DwExtraInfo: 0}}` that every branch appends. -/
def keyInput (u : user32) (vk : Nat) (dwFlags : Nat) : INPUT_KEYBDINPUT :=
  { Type_ := INPUT_KEYBOARD
    Ki := { WVk := 0
            WScan := u.MapVirtualKey (vk % 4294967296) MAPVK_VK_TO_VSC % 65536
            DwFlags := dwFlags
            Time := 0
            DwExtraInfo := 0 } }

/-- The local `dwFlags` of the three modifier blocks: `KEYEVENTF_SCANCODE |
KEYEVENTF_KEYUP`, replaced by `KEYEVENTF_SCANCODE` when the binding requires the
modifier. -/
def modifierFlags (required : Bool) : Nat :=
  if required then KEYEVENTF_SCANCODE else KEYEVENTF_SCANCODE ||| KEYEVENTF_KEYUP

/-- Lines 69-81: the re-trigger block of a press event. -/
def pressRetrigger (u : user32) (keybind : keybinding)
    (st : keystrokeStatus × List INPUT_KEYBDINPUT) : keystrokeStatus × List INPUT_KEYBDINPUT :=
  if st.1.pressedKeys keybind.VirtualKeyCode then
    ({ st.1 with pressedKeysCount := wrapInt (st.1.pressedKeysCount - 1) },
      st.2 ++ [keyInput u keybind.VirtualKeyCode.val (KEYEVENTF_SCANCODE ||| KEYEVENTF_KEYUP)])
  else st

/-- Lines 82-98: the Ctrl block of a press event. -/
def pressCtrl (u : user32) (keybind : keybinding)
    (st : keystrokeStatus × List INPUT_KEYBDINPUT) : keystrokeStatus × List INPUT_KEYBDINPUT :=
  if st.1.isCtrlDown != keybind.Ctrl then
    ({ st.1 with isCtrlDown := keybind.Ctrl },
      st.2 ++ [keyInput u VK_CONTROL (modifierFlags keybind.Ctrl)])
  else st

/-- Lines 99-115: the Alt block of a press event. -/
def pressAlt (u : user32) (keybind : keybinding)
    (st : keystrokeStatus × List INPUT_KEYBDINPUT) : keystrokeStatus × List INPUT_KEYBDINPUT :=
  if st.1.isAltDown != keybind.Alt then
    ({ st.1 with isAltDown := keybind.Alt },
      st.2 ++ [keyInput u VK_MENU (modifierFlags keybind.Alt)])
  else st

/-- Lines 116-132: the Shift block of a press event. -/
def pressShift (u : user32) (keybind : keybinding)
    (st : keystrokeStatus × List INPUT_KEYBDINPUT) : keystrokeStatus × List INPUT_KEYBDINPUT :=
  if st.1.isShiftDown != keybind.Shift then
    ({ st.1 with isShiftDown := keybind.Shift },
      st.2 ++ [keyInput u VK_SHIFT (modifierFlags keybind.Shift)])
  else st

/-- Lines 133-145: the press of the bound key, the bookkeeping and the `Stop` of
the idle timer. -/
def pressKey (u : user32) (keybind : keybinding)
    (st : keystrokeStatus × List INPUT_KEYBDINPUT) : keystrokeStatus × List INPUT_KEYBDINPUT :=
  ({ st.1 with
      pressedKeys := Function.update st.1.pressedKeys keybind.VirtualKeyCode true
      pressedKeysCount := wrapInt (st.1.pressedKeysCount + 1)
      clearModifiersTimer := st.1.clearModifiersTimer.Stop },
    st.2 ++ [keyInput u keybind.VirtualKeyCode.val KEYEVENTF_SCANCODE])

/-- Lines 148-161: the release block of a release event. -/
def releaseKey (u : user32) (keybind : keybinding)
    (st : keystrokeStatus × List INPUT_KEYBDINPUT) : keystrokeStatus × List INPUT_KEYBDINPUT :=
  if st.1.pressedKeys keybind.VirtualKeyCode then
    ({ st.1 with
        pressedKeys := Function.update st.1.pressedKeys keybind.VirtualKeyCode false
        pressedKeysCount := wrapInt (st.1.pressedKeysCount - 1) },
      st.2 ++ [keyInput u keybind.VirtualKeyCode.val (KEYEVENTF_SCANCODE ||| KEYEVENTF_KEYUP)])
  else st

/-- Lines 162-164: the idle timer is reset when no key is counted as pressed. -/
def releaseTimer (app : application) (now : Nat)
    (st : keystrokeStatus × List INPUT_KEYBDINPUT) : keystrokeStatus × List INPUT_KEYBDINPUT :=
  if st.1.pressedKeysCount = 0 then
    ({ st.1 with clearModifiersTimer := st.1.clearModifiersTimer.Reset now app.IdleDuration },
      st.2)
  else st

/-- Lines 66-165 of `produceKeystroke`: the state after the event and the slice
`pInputs`, for a message processed at time `now`. -/
def produceKeystrokeInputs (u : user32) (app : application) (now : Nat)
    (s : keystrokeStatus) (note : midiMessage) : keystrokeStatus × List INPUT_KEYBDINPUT :=
  if note.status = 0x90 then
    let keybind := app.Keybinding note.note
    pressKey u keybind (pressShift u keybind (pressAlt u keybind (pressCtrl u keybind
      (pressRetrigger u keybind (s, [])))))
  else if note.status = 0x80 then
    let keybind := app.Keybinding note.note
    releaseTimer app now (releaseKey u keybind (s, []))
  else (s, [])

/-- Lines 178-217 of `clearModifiers`: the state after the expiry and the slice
`pInputs`. -/
def clearModifiersInputs (u : user32) (s : keystrokeStatus) :
    keystrokeStatus × List INPUT_KEYBDINPUT :=
  let st0 : keystrokeStatus × List INPUT_KEYBDINPUT := (s, [])
  let st1 :=
    if st0.1.isCtrlDown then
      ({ st0.1 with isCtrlDown := false },
        st0.2 ++ [keyInput u VK_CONTROL (KEYEVENTF_SCANCODE ||| KEYEVENTF_KEYUP)])
    else st0
  let st2 :=
    if st1.1.isAltDown then
      ({ st1.1 with isAltDown := false },
        st1.2 ++ [keyInput u VK_MENU (KEYEVENTF_SCANCODE ||| KEYEVENTF_KEYUP)])
    else st1
  if st2.1.isShiftDown then
    ({ st2.1 with isShiftDown := false },
      st2.2 ++ [keyInput u VK_SHIFT (KEYEVENTF_SCANCODE ||| KEYEVENTF_KEYUP)])
  else st2

/-! ## Sending and checking -/

/-- One iteration of `for i := range pInputs`: the call
`user32.SendInput(pInputs[i : i+1])` and the printing of its error. -/
def sendOne (u : user32) (pInputs : List INPUT_KEYBDINPUT) (out : Output) (i : Nat) : Output :=
  let arg := (pInputs.drop i).take 1
  match u.SendInput out.calls arg with
  | none => { out with calls := out.calls ++ [arg] }
  | some err => { calls := out.calls ++ [arg], errors := out.errors ++ [err] }

/-- The loop `for i := range pInputs { ... }` of both functions. -/
def sendInputs (u : user32) (pInputs : List INPUT_KEYBDINPUT) (out : Output) : Output :=
  (List.range pInputs.length).foldl (sendOne u pInputs) out

/-- The counting loop of `printPressedKeys`: `for i, v := range pressedKeys`
incrementing the local `pressedKeysCount` at every true entry. -/
def countPressedKeys (pressedKeys : Fin 256 → Bool) : Nat :=
  (List.finRange 256).foldl (fun n i => if pressedKeys i then n + 1 else n) 0

/-- The function `printPressedKeys`: it panics when the number of true entries
differs from the recorded `pressedKeysCount`. -/
def printPressedKeys (s : keystrokeStatus) : Except Panic Unit :=
  let pressedKeysCount : Int := (countPressedKeys s.pressedKeys : Int)
  if pressedKeysCount ≠ s.pressedKeysCount then
    Except.error { counted := pressedKeysCount, recorded := s.pressedKeysCount }
  else Except.ok ()

/-- What a call of `produceKeystroke` or `clearModifiers` leaves behind: the key
state, the output collaborator, and whether the call returned or panicked. -/
structure Outcome where
  keyStatus : keystrokeStatus
  out : Output
  result : Except Panic Unit

/-- Lines 166-174 and 218-226: when `pInputs` is not empty, send every action and
run the consistency check. -/
def sendAndCheck (u : user32) (out : Output)
    (st : keystrokeStatus × List INPUT_KEYBDINPUT) : Outcome :=
  if st.2.length ≠ 0 then
    { keyStatus := st.1, out := sendInputs u st.2 out, result := printPressedKeys st.1 }
  else
    { keyStatus := st.1, out := out, result := Except.ok () }

/-- The function `produceKeystroke`, for a message processed at time `now`. -/
def produceKeystroke (u : user32) (app : application) (now : Nat) (out : Output)
    (s : keystrokeStatus) (note : midiMessage) : Outcome :=
  sendAndCheck u out (produceKeystrokeInputs u app now s note)

/-- The function `clearModifiers`. -/
def clearModifiers (u : user32) (out : Output) (s : keystrokeStatus) : Outcome :=
  sendAndCheck u out (clearModifiersInputs u s)

/-! ## Runs of the keystroke goroutine -/

/-- The timer of `processKeystrokes` has fired: its channel delivered and the
timer is no longer armed. -/
def timerFired (s : keystrokeStatus) : keystrokeStatus :=
  { s with clearModifiersTimer := { deadline := none } }

/-- What the loop of `processKeystrokes` can receive: a MIDI message handed to
`produceKeystroke` at time `now`, or the expiry of `clearModifiersTimer`. -/
inductive Op where
  | message (note : midiMessage) (now : Nat)
  | expiry
deriving DecidableEq, Repr

/-- The start of `processKeystrokes` at time `now`: fresh key state, nothing sent. -/
def initOutcome (app : application) (now : Nat) : Outcome :=
  { keyStatus := initKeyStatus app now
    out := { calls := [], errors := [] }
    result := Except.ok () }

/-- One iteration of the loop of `processKeystrokes`. After a panic the process
is gone and nothing more happens. -/
def step (u : user32) (app : application) (sys : Outcome) (op : Op) : Outcome :=
  match sys.result with
  | Except.error _ => sys
  | Except.ok _ =>
    match op with
    | Op.message note now => produceKeystroke u app now sys.out sys.keyStatus note
    | Op.expiry => clearModifiers u sys.out (timerFired sys.keyStatus)

/-- The loop of `processKeystrokes` started at time `t0` and fed `ops` in order. -/
def run (u : user32) (app : application) (t0 : Nat) (ops : List Op) : Outcome :=
  ops.foldl (step u app) (initOutcome app t0)

/-- The number of indices `k` with `pressedKeys[k] = true`. -/
def pressedCard (pressedKeys : Fin 256 → Bool) : Nat :=
  (Finset.univ.filter (fun k => pressedKeys k = true)).card

/-- All key actions handed to the output collaborator so far, in order. -/
def Output.emitted (out : Output) : List INPUT_KEYBDINPUT := out.calls.flatten

/-! ## Reading key actions -/

/-- The scan code the code sends for the virtual key `vk`:
`uint16(user32.MapVirtualKey(uint32(vk), user32.MAPVK_VK_TO_VSC))`. -/
def scanCode (u : user32) (vk : Nat) : Nat :=
  u.MapVirtualKey (vk % 4294967296) MAPVK_VK_TO_VSC % 65536

/-- A release of the key `vk`: its scan code with the key-up flag. -/
def keyRelease (u : user32) (vk : Nat) : INPUT_KEYBDINPUT :=
  { Type_ := INPUT_KEYBOARD
    Ki := { WVk := 0, WScan := scanCode u vk, DwFlags := KEYEVENTF_SCANCODE ||| KEYEVENTF_KEYUP,
            Time := 0, DwExtraInfo := 0 } }

/-- A press of the key `vk`: its scan code without the key-up flag. -/
def keyPress (u : user32) (vk : Nat) : INPUT_KEYBDINPUT :=
  { Type_ := INPUT_KEYBOARD
    Ki := { WVk := 0, WScan := scanCode u vk, DwFlags := KEYEVENTF_SCANCODE,
            Time := 0, DwExtraInfo := 0 } }

/-- Whether a key action is a release: the bit `KEYEVENTF_KEYUP` of its flags. -/
def isKeyUp (a : INPUT_KEYBDINPUT) : Bool :=
  a.Ki.DwFlags &&& KEYEVENTF_KEYUP != 0

/-- A keyboard as the receiver of the key actions sees it: for every scan code,
whether that key is down. -/
def Keyboard : Type := Nat → Bool

/-- The keyboard with every key up. -/
def Keyboard.allUp : Keyboard := fun _ => false

/-- The effect of one key action on the keyboard. -/
def Keyboard.apply (kb : Keyboard) (a : INPUT_KEYBDINPUT) : Keyboard :=
  Function.update kb a.Ki.WScan (!isKeyUp a)

/-- The keyboard after replaying the key actions `acts` in order, from all keys up. -/
def replay (acts : List INPUT_KEYBDINPUT) : Keyboard :=
  acts.foldl Keyboard.apply Keyboard.allUp

/-- The key state is consistent: `pressedKeysCount` is the number of true entries
of `pressedKeys`. -/
def Consistent (s : keystrokeStatus) : Prop :=
  s.pressedKeysCount = (pressedCard s.pressedKeys : Int)

/-! ## The PUT handlers of `web.go` -/

/-- The two functions of the Go library package `strconv` that the handlers call,
taken as parameters: `ParseUint s base bitSize` and `ParseInt s base bitSize`, each
returning the value or an error. -/
structure strconv where
  ParseUint : String → Nat → Nat → Except String Nat
  ParseInt : String → Nat → Nat → Except String Int

/-- What a handler reads of the `*http.Request`: the method, and the result of
`ioutil.ReadAll(r.Body)` (the body, or the error of the read). -/
structure Request where
  Method : String
  Body : Except String String

/-- The closures the three handlers submit to `h.app.MidiRealtimeGoro`: the three
setters with their argument, and the three closures that read the stored value
into `result`. -/
inductive Task where
  | setMidiOutBank (value : Nat)
  | setMidiOutPatch (value : Nat)
  | setMidiOutTranspose (value : Int)
  | readMidiOutBank
  | readMidiOutPatch
  | readMidiOutTranspose
deriving DecidableEq, Repr

/-- What a handler writes to the `http.ResponseWriter`: `http.Error(w, msg, code)`,
or `writeJSON(w, result)`, whose field is filled by the submitted read closure
and is not modelled. -/
inductive Reply where
  | error (msg : String) (code : Nat)
  | json
deriving DecidableEq, Repr

/-- The HTTP status of a reply: the code of `http.Error`, 200 for `writeJSON`. -/
def Reply.status : Reply → Nat
  | Reply.error _ code => code
  | Reply.json => 200

/-- The handler `midiOutputBank`. `q` lists the closures submitted to the actor so
far; the result is the reply and the list after the request. The error of both
`Submit` calls is dropped by the code. -/
def midiOutputBank (sc : strconv) (r : Request) (q : List Task) : Reply × List Task :=
  if r.Method = "PUT" then
    match r.Body with
    | Except.error err => (Reply.error err 500, q)
    | Except.ok body =>
      match sc.ParseUint body 0 14 with
      | Except.error err => (Reply.error err 400, q)
      | Except.ok value =>
        (Reply.json, (q ++ [Task.setMidiOutBank (value % 65536)]) ++ [Task.readMidiOutBank])
  else (Reply.json, q ++ [Task.readMidiOutBank])

/-- The handler `midiOutputPatch`. The error of both `Submit` calls is dropped by
the code. -/
def midiOutputPatch (sc : strconv) (r : Request) (q : List Task) : Reply × List Task :=
  if r.Method = "PUT" then
    match r.Body with
    | Except.error err => (Reply.error err 500, q)
    | Except.ok body =>
      match sc.ParseUint body 0 7 with
      | Except.error err => (Reply.error err 400, q)
      | Except.ok value =>
        (Reply.json, (q ++ [Task.setMidiOutPatch (value % 256)]) ++ [Task.readMidiOutPatch])
  else (Reply.json, q ++ [Task.readMidiOutPatch])

/-- The handler `midiOutputTranspose`. `Submit` gives the error returned by
`MidiRealtimeGoro.Submit` for a closure, given the closures submitted before; this
handler answers 503 when the submission of the setter fails. -/
def midiOutputTranspose (sc : strconv) (Submit : List Task → Task → Option String)
    (r : Request) (q : List Task) : Reply × List Task :=
  if r.Method = "PUT" then
    match r.Body with
    | Except.error err => (Reply.error err 500, q)
    | Except.ok body =>
      match sc.ParseInt body 0 8 with
      | Except.error err => (Reply.error err 400, q)
      | Except.ok value =>
        match Submit q (Task.setMidiOutTranspose (wrapInt value)) with
        | some err => (Reply.error err 503, q ++ [Task.setMidiOutTranspose (wrapInt value)])
        | none =>
          (Reply.json,
            (q ++ [Task.setMidiOutTranspose (wrapInt value)]) ++ [Task.readMidiOutTranspose])
  else (Reply.json, q ++ [Task.readMidiOutTranspose])

/-- The contract of `strconv.ParseUint(s, 0, bitSize)` and `strconv.ParseInt(s, 0,
bitSize)` for a bit size from 1 to 64, relative to a reading of integer literals:
`litU s` is the value of `s` when `s` is an unsigned integer literal, `litI s` when
it is a signed one. The call returns the value when the literal fits in `bitSize`
bits and an error otherwise. Nothing is asked of the parser at bit size 0 (which
the library reads as the size of `int`) or above 64 (which it refuses); the
handlers pass 14, 7 and 8. -/
def StrconvContract (litU : String → Option Nat) (litI : String → Option Int)
    (sc : strconv) : Prop :=
  (∀ (s : String) (bits v : Nat), 1 ≤ bits → bits ≤ 64 →
      (sc.ParseUint s 0 bits = Except.ok v ↔ (litU s = some v ∧ v < 2 ^ bits)))
  ∧ (∀ (s : String) (bits : Nat) (v : Int), 1 ≤ bits → bits ≤ 64 →
      (sc.ParseInt s 0 bits = Except.ok v
        ↔ (litI s = some v ∧ -(2 ^ (bits - 1)) ≤ v ∧ v < 2 ^ (bits - 1))))

/-- The bit size the library works with: `bitSize == 0` stands for the size of
`int`, 64 bits. -/
def effectiveBitSize (bitSize : Nat) : Nat :=
  if bitSize = 0 then 64 else bitSize

/-- A parser built from a reading of literals, for evaluating concrete cases. As in
the library, a bit size above 64 is refused, and bit size 0 is read as 64. -/
def strconvOf (litU : String → Option Nat) (litI : String → Option Int) : strconv :=
  { ParseUint := fun s _ bitSize =>
      if 64 < bitSize then Except.error "invalid bit size"
      else
        match litU s with
        | some v =>
          if v < 2 ^ effectiveBitSize bitSize then Except.ok v
          else Except.error "value out of range"
        | none => Except.error "invalid syntax"
    ParseInt := fun s _ bitSize =>
      if 64 < bitSize then Except.error "invalid bit size"
      else
        match litI s with
        | some v =>
          if -(2 ^ (effectiveBitSize bitSize - 1)) ≤ v ∧ v < 2 ^ (effectiveBitSize bitSize - 1)
          then Except.ok v
          else Except.error "value out of range"
        | none => Except.error "invalid syntax" }

/-- A reading of unsigned literals that knows three strings. -/
def sampleLitU (s : String) : Option Nat :=
  if s = "5" then some 5 else if s = "0x3FFF" then some 16383
  else if s = "20000" then some 20000 else none

/-- A reading of signed literals that knows three strings. -/
def sampleLitI (s : String) : Option Int :=
  if s = "5" then some 5 else if s = "-128" then some (-128)
  else if s = "200" then some 200 else none

/-! ## Concrete instances, for evaluating particular cases -/

/-- A stand-in for the two functions of the package `user32`: the scan codes of
Shift, Ctrl, Alt and of the letters A and S on a PC keyboard, 0 (no translation)
for every other key, and a `SendInput` that never fails. -/
def sampleUser32 : user32 :=
  { MapVirtualKey := fun uCode _ =>
      if uCode = 0x10 then 0x2A
      else if uCode = 0x11 then 0x1D
      else if uCode = 0x12 then 0x38
      else if uCode = 0x41 then 0x1E
      else if uCode = 0x53 then 0x1F
      else 0
    SendInput := fun _ _ => none }

/-- A binding table: note 0 is Ctrl+A, note 1 is the Ctrl key itself without
modifier, every other note is the letter S without modifier. The idle duration
is 1000 time units. -/
def sampleApp : application :=
  { Keybinding := fun n =>
      if n = 0 then { VirtualKeyCode := 0x41, Ctrl := true, Alt := false, Shift := false }
      else if n = 1 then { VirtualKeyCode := 0x11, Ctrl := false, Alt := false, Shift := false }
      else { VirtualKeyCode := 0x53, Ctrl := false, Alt := false, Shift := false }
    IdleDuration := 1000 }

/-- The key state after a press of note 1 and then a press of note 0 of `sampleApp`:
the keys Ctrl (0x11) and A (0x41) are held and Ctrl is recorded as down. -/
def sampleHeld : keystrokeStatus :=
  { pressedKeys := fun k => k = 0x11 || k = 0x41
    pressedKeysCount := 2
    isCtrlDown := true
    isAltDown := false
    isShiftDown := false
    clearModifiersTimer := { deadline := none } }

/-- A key state that is not consistent: no key is marked pressed and the count is 5. -/
def sampleBroken : keystrokeStatus :=
  { pressedKeys := fun _ => false
    pressedKeysCount := 5
    isCtrlDown := false
    isAltDown := false
    isShiftDown := false
    clearModifiersTimer := { deadline := none } }

/-- A binding table with no note on a modifier key: note 0 is Ctrl+A, every other
note is Shift+S. The idle duration is 1000 time units. -/
def sampleLetters : application :=
  { Keybinding := fun n =>
      if n = 0 then { VirtualKeyCode := 0x41, Ctrl := true, Alt := false, Shift := false }
      else { VirtualKeyCode := 0x53, Ctrl := false, Alt := false, Shift := true }
    IdleDuration := 1000 }

/-- The three recorded modifier flags are what the keyboard shows after all the
key actions sent so far. -/
def FlagsMatch (u : user32) (sys : Outcome) : Prop :=
  sys.keyStatus.isCtrlDown = replay sys.out.emitted (scanCode u VK_CONTROL)
  ∧ sys.keyStatus.isAltDown = replay sys.out.emitted (scanCode u VK_MENU)
  ∧ sys.keyStatus.isShiftDown = replay sys.out.emitted (scanCode u VK_SHIFT)

/-! ## The idle timer in the loop of `processKeystrokes` -/

/-- Whether the idle timer is armed: it has a pending deadline. -/
def armed (s : keystrokeStatus) : Bool :=
  s.clearModifiersTimer.deadline.isSome

/-- The step relation of the loop of `processKeystrokes`: a message is handed to
`produceKeystroke` at any time; the expiry branch, which runs `clearModifiers`, can
be taken only when the idle timer is armed, and leaves it disarmed. -/
inductive Step (u : user32) (app : application) : Outcome → Outcome → Prop where
  | message (sys : Outcome) (note : midiMessage) (now : Nat) :
      Step u app sys (step u app sys (Op.message note now))
  | expiry (sys : Outcome) (h : armed sys.keyStatus = true) :
      Step u app sys (step u app sys Op.expiry)

/-- The states the loop started at time `t0` can reach. -/
def Reachable (u : user32) (app : application) (t0 : Nat) (sys : Outcome) : Prop :=
  Relation.ReflTransGen (Step u app) (initOutcome app t0) sys

/-- The two facts that tie the idle timer to the key state: an armed timer means
no key is counted as pressed, and a recorded modifier with no key counted as
pressed means the timer is armed. -/
def IdleInv (s : keystrokeStatus) : Prop :=
  (armed s = true → s.pressedKeysCount = 0)
  ∧ (s.pressedKeysCount = 0 →
      (s.isCtrlDown = true ∨ s.isAltDown = true ∨ s.isShiftDown = true) → armed s = true)

/-- The state of `sampleLetters` started at time 0 after a press of note 0 (Ctrl+A)
at time 10 and its release at time 20. -/
def sampleIdle : Outcome :=
  step sampleUser32 sampleLetters
    (step sampleUser32 sampleLetters (initOutcome sampleLetters 0)
      (Op.message { status := 0x90, note := 0 } 10))
    (Op.message { status := 0x80, note := 0 } 20)

/-- The state reached from `sampleIdle` by the expiry of the idle timer and then, at
time 2000, a release event for note 5, whose key is not pressed. -/
def sampleRearmed : Outcome :=
  step sampleUser32 sampleLetters (step sampleUser32 sampleLetters sampleIdle Op.expiry)
    (Op.message { status := 0x80, note := 5 } 2000)

/-! ## Basic facts -/

theorem wrapInt_of_isGoInt {x : Int} (h : isGoInt x) : wrapInt x = x := by
  unfold isGoInt at h
  unfold wrapInt
  omega

theorem isGoInt_wrapInt (x : Int) : isGoInt (wrapInt x) := by
  unfold isGoInt wrapInt
  omega

theorem wrapInt_dec_inc {x : Int} (h : isGoInt x) : wrapInt (wrapInt (x - 1) + 1) = x := by
  unfold isGoInt at h
  unfold wrapInt
  omega

theorem foldl_count_eq (p : Fin 256 → Bool) (l : List (Fin 256)) (a : Nat) :
    l.foldl (fun n i => if p i then n + 1 else n) a = a + l.countP (fun i => p i) := by
  induction l generalizing a with
  | nil => simp
  | cons x xs ih =>
    simp only [List.foldl_cons, List.countP_cons, ih]
    cases p x
    · simp
    · simp; omega

theorem countPressedKeys_eq_card (p : Fin 256 → Bool) :
    countPressedKeys p = pressedCard p := by
  unfold countPressedKeys pressedCard
  rw [foldl_count_eq, Nat.zero_add, Fin.univ_def]
  simp [Finset.card, Finset.filter, List.countP_eq_length_filter]

theorem pressedCard_le (p : Fin 256 → Bool) : pressedCard p ≤ 256 := by
  unfold pressedCard
  calc (Finset.univ.filter (fun k => p k = true)).card
      ≤ (Finset.univ : Finset (Fin 256)).card := Finset.card_filter_le _ _
    _ = 256 := by rw [Finset.card_univ, Fintype.card_fin]

theorem pressedCard_pos {p : Fin 256 → Bool} {k : Fin 256} (h : p k = true) :
    0 < pressedCard p := by
  unfold pressedCard
  exact Finset.card_pos.mpr ⟨k, by simp [h]⟩

theorem pressedCard_update_true (p : Fin 256 → Bool) (k : Fin 256) :
    pressedCard (Function.update p k true) = if p k then pressedCard p else pressedCard p + 1 := by
  unfold pressedCard
  have hset : Finset.univ.filter (fun i => Function.update p k true i = true)
      = insert k (Finset.univ.filter (fun i => p i = true)) := by
    ext i
    by_cases hik : i = k
    · subst hik; simp
    · simp [Function.update_noteq hik, hik]
  rw [hset]
  by_cases hk : p k = true
  · simp [hk]
  · have hnot : k ∉ Finset.univ.filter (fun i => p i = true) := by simp [hk]
    simp [Finset.card_insert_of_not_mem hnot, hk]

theorem pressedCard_update_false (p : Fin 256 → Bool) (k : Fin 256) :
    pressedCard (Function.update p k false) = if p k then pressedCard p - 1 else pressedCard p := by
  unfold pressedCard
  have hset : Finset.univ.filter (fun i => Function.update p k false i = true)
      = (Finset.univ.filter (fun i => p i = true)).erase k := by
    ext i
    by_cases hik : i = k
    · subst hik; simp
    · simp [Function.update_noteq hik, hik]
  rw [hset]
  by_cases hk : p k = true
  · have hmem : k ∈ Finset.univ.filter (fun i => p i = true) := by simp [hk]
    simp [Finset.card_erase_of_mem hmem, hk]
  · have hnot : k ∉ Finset.univ.filter (fun i => p i = true) := by simp [hk]
    simp [Finset.erase_eq_of_not_mem hnot, hk]

/-! ## Closed forms of the two builders -/

theorem keyInput_up (u : user32) (vk : Nat) :
    keyInput u vk (KEYEVENTF_SCANCODE ||| KEYEVENTF_KEYUP) = keyRelease u vk := rfl

theorem keyInput_down (u : user32) (vk : Nat) :
    keyInput u vk KEYEVENTF_SCANCODE = keyPress u vk := rfl

theorem keyInput_modifier (u : user32) (vk : Nat) (b : Bool) :
    keyInput u vk (modifierFlags b) = if b then keyPress u vk else keyRelease u vk := by
  cases b <;> rfl

/-- The state a press event leaves. -/
theorem press_state_eq (u : user32) (app : application) (now : Nat) (s : keystrokeStatus)
    (note : midiMessage) (h : note.status = 0x90) :
    (produceKeystrokeInputs u app now s note).1 =
      { pressedKeys := Function.update s.pressedKeys (app.Keybinding note.note).VirtualKeyCode true
        pressedKeysCount :=
          wrapInt ((if s.pressedKeys (app.Keybinding note.note).VirtualKeyCode
            then wrapInt (s.pressedKeysCount - 1) else s.pressedKeysCount) + 1)
        isCtrlDown := (app.Keybinding note.note).Ctrl
        isAltDown := (app.Keybinding note.note).Alt
        isShiftDown := (app.Keybinding note.note).Shift
        clearModifiersTimer := { deadline := none } } := by
  simp only [produceKeystrokeInputs, h, if_true]
  generalize app.Keybinding note.note = kb
  obtain ⟨vk, c, a, sh⟩ := kb
  obtain ⟨pk, cnt, ic, ia, ish, tm⟩ := s
  cases hp : pk vk <;> cases c <;> cases a <;> cases sh <;> cases ic <;> cases ia <;> cases ish <;>
    simp [pressKey, pressShift, pressAlt, pressCtrl, pressRetrigger, hp, Timer.Stop]

/-- The actions a press event builds. -/
theorem press_inputs_eq (u : user32) (app : application) (now : Nat) (s : keystrokeStatus)
    (note : midiMessage) (h : note.status = 0x90) :
    (produceKeystrokeInputs u app now s note).2 =
      (if s.pressedKeys (app.Keybinding note.note).VirtualKeyCode
        then [keyRelease u (app.Keybinding note.note).VirtualKeyCode.val] else [])
      ++ (if s.isCtrlDown = (app.Keybinding note.note).Ctrl then []
          else [if (app.Keybinding note.note).Ctrl then keyPress u VK_CONTROL
                else keyRelease u VK_CONTROL])
      ++ (if s.isAltDown = (app.Keybinding note.note).Alt then []
          else [if (app.Keybinding note.note).Alt then keyPress u VK_MENU
                else keyRelease u VK_MENU])
      ++ (if s.isShiftDown = (app.Keybinding note.note).Shift then []
          else [if (app.Keybinding note.note).Shift then keyPress u VK_SHIFT
                else keyRelease u VK_SHIFT])
      ++ [keyPress u (app.Keybinding note.note).VirtualKeyCode.val] := by
  simp only [produceKeystrokeInputs, h, if_true]
  generalize app.Keybinding note.note = kb
  obtain ⟨vk, c, a, sh⟩ := kb
  obtain ⟨pk, cnt, ic, ia, ish, tm⟩ := s
  cases hp : pk vk <;> cases c <;> cases a <;> cases sh <;> cases ic <;> cases ia <;> cases ish <;>
    simp [pressKey, pressShift, pressAlt, pressCtrl, pressRetrigger, hp, keyInput_up,
      keyInput_down, keyInput_modifier]

/-- The state a release event leaves. -/
theorem release_state_eq (u : user32) (app : application) (now : Nat) (s : keystrokeStatus)
    (note : midiMessage) (h : note.status = 0x80) :
    (produceKeystrokeInputs u app now s note).1 =
      if s.pressedKeys (app.Keybinding note.note).VirtualKeyCode then
        { s with
          pressedKeys :=
            Function.update s.pressedKeys (app.Keybinding note.note).VirtualKeyCode false
          pressedKeysCount := wrapInt (s.pressedKeysCount - 1)
          clearModifiersTimer :=
            if wrapInt (s.pressedKeysCount - 1) = 0 then { deadline := some (now + app.IdleDuration) }
            else s.clearModifiersTimer }
      else
        { s with
          clearModifiersTimer :=
            if s.pressedKeysCount = 0 then { deadline := some (now + app.IdleDuration) }
            else s.clearModifiersTimer } := by
  have h90 : ¬ note.status = 0x90 := by rw [h]; decide
  simp only [produceKeystrokeInputs, h, h90, if_true, if_false]
  generalize app.Keybinding note.note = kb
  obtain ⟨pk, cnt, ic, ia, ish, tm⟩ := s
  cases hp : pk kb.VirtualKeyCode
  · by_cases hc : cnt = 0 <;> simp [releaseKey, releaseTimer, hp, hc, Timer.Reset]
  · by_cases hc : wrapInt (cnt - 1) = 0 <;> simp [releaseKey, releaseTimer, hp, hc, Timer.Reset]

/-- The actions a release event builds. -/
theorem release_inputs_eq (u : user32) (app : application) (now : Nat) (s : keystrokeStatus)
    (note : midiMessage) (h : note.status = 0x80) :
    (produceKeystrokeInputs u app now s note).2 =
      if s.pressedKeys (app.Keybinding note.note).VirtualKeyCode
        then [keyRelease u (app.Keybinding note.note).VirtualKeyCode.val] else [] := by
  have h90 : ¬ note.status = 0x90 := by rw [h]; decide
  simp only [produceKeystrokeInputs, h, h90, if_true, if_false]
  generalize app.Keybinding note.note = kb
  obtain ⟨pk, cnt, ic, ia, ish, tm⟩ := s
  cases hp : pk kb.VirtualKeyCode
  · by_cases hc : cnt = 0 <;> simp [releaseKey, releaseTimer, hp, hc]
  · by_cases hc : wrapInt (cnt - 1) = 0 <;>
      simp [releaseKey, releaseTimer, hp, hc, keyInput_up]

/-- A message that is neither a press nor a release changes nothing. -/
theorem other_eq (u : user32) (app : application) (now : Nat) (s : keystrokeStatus)
    (note : midiMessage) (h90 : note.status ≠ 0x90) (h80 : note.status ≠ 0x80) :
    produceKeystrokeInputs u app now s note = (s, []) := by
  simp [produceKeystrokeInputs, h90, h80]

/-- The state an idle-timer expiry leaves. -/
theorem clear_state_eq (u : user32) (s : keystrokeStatus) :
    (clearModifiersInputs u s).1 =
      { s with isCtrlDown := false, isAltDown := false, isShiftDown := false } := by
  obtain ⟨pk, cnt, ic, ia, ish, tm⟩ := s
  cases ic <;> cases ia <;> cases ish <;> simp [clearModifiersInputs]

/-- The actions an idle-timer expiry builds. -/
theorem clear_inputs_eq (u : user32) (s : keystrokeStatus) :
    (clearModifiersInputs u s).2 =
      (if s.isCtrlDown then [keyRelease u VK_CONTROL] else [])
      ++ (if s.isAltDown then [keyRelease u VK_MENU] else [])
      ++ (if s.isShiftDown then [keyRelease u VK_SHIFT] else []) := by
  obtain ⟨pk, cnt, ic, ia, ish, tm⟩ := s
  cases ic <;> cases ia <;> cases ish <;> simp [clearModifiersInputs, keyInput_up]

/-! ## The sending loop and the check -/

theorem take_one_drop {α : Type} (l : List α) (k : Nat) (h : k < l.length) :
    (l.drop k).take 1 = [l[k]] := by
  rw [List.drop_eq_getElem_cons h, List.take_succ_cons, List.take_zero]

theorem take_succ_map {α : Type} (l : List α) (k : Nat) (h : k < l.length) :
    (l.take (k + 1)).map (fun a => [a]) = (l.take k).map (fun a => [a]) ++ [[l[k]]] := by
  rw [List.take_succ, List.map_append, List.getElem?_eq_getElem h]
  rfl

theorem flatten_map_singleton {α : Type} (l : List α) :
    (l.map (fun a => [a])).flatten = l := by
  induction l with
  | nil => rfl
  | cons x xs ih => simp [ih]

theorem sendOne_calls (u : user32) (l : List INPUT_KEYBDINPUT) (out : Output) (i : Nat) :
    (sendOne u l out i).calls = out.calls ++ [(l.drop i).take 1] := by
  unfold sendOne
  dsimp only
  split <;> rfl

theorem sendInputs_range_calls (u : user32) (l : List INPUT_KEYBDINPUT) (out : Output)
    (k : Nat) (hk : k ≤ l.length) :
    ((List.range k).foldl (sendOne u l) out).calls
      = out.calls ++ (l.take k).map (fun a => [a]) := by
  induction k with
  | zero => simp
  | succ k ih =>
    have hlt : k < l.length := hk
    rw [List.range_succ, List.foldl_append, List.foldl_cons, List.foldl_nil, sendOne_calls,
      ih (le_of_lt hlt), take_one_drop l k hlt, take_succ_map l k hlt, List.append_assoc]

theorem sendInputs_calls (u : user32) (l : List INPUT_KEYBDINPUT) (out : Output) :
    (sendInputs u l out).calls = out.calls ++ l.map (fun a => [a]) := by
  unfold sendInputs
  rw [sendInputs_range_calls u l out l.length le_rfl, List.take_length]

theorem sendAndCheck_keyStatus (u : user32) (out : Output)
    (st : keystrokeStatus × List INPUT_KEYBDINPUT) :
    (sendAndCheck u out st).keyStatus = st.1 := by
  unfold sendAndCheck
  split <;> rfl

theorem sendAndCheck_calls (u : user32) (out : Output)
    (st : keystrokeStatus × List INPUT_KEYBDINPUT) :
    (sendAndCheck u out st).out.calls = out.calls ++ st.2.map (fun a => [a]) := by
  unfold sendAndCheck
  split
  · exact sendInputs_calls u st.2 out
  · rename_i h
    have hnil : st.2 = [] := by
      cases hl : st.2 with
      | nil => rfl
      | cons x xs => simp [hl] at h
    simp [hnil]

theorem sendAndCheck_emitted (u : user32) (out : Output)
    (st : keystrokeStatus × List INPUT_KEYBDINPUT) :
    (sendAndCheck u out st).out.emitted = out.emitted ++ st.2 := by
  unfold Output.emitted
  rw [sendAndCheck_calls, List.flatten_append, flatten_map_singleton]

theorem sendAndCheck_result (u : user32) (out : Output)
    (st : keystrokeStatus × List INPUT_KEYBDINPUT) :
    (sendAndCheck u out st).result
      = if st.2 = [] then Except.ok () else printPressedKeys st.1 := by
  unfold sendAndCheck
  cases hl : st.2 with
  | nil => simp
  | cons x xs => simp

theorem printPressedKeys_ok_iff (s : keystrokeStatus) :
    printPressedKeys s = Except.ok () ↔ Consistent s := by
  unfold printPressedKeys Consistent
  rw [countPressedKeys_eq_card]
  by_cases h : (pressedCard s.pressedKeys : Int) = s.pressedKeysCount
  · simp [h]
  · have h2 : ¬ s.pressedKeysCount = (pressedCard s.pressedKeys : Int) := fun e => h e.symm
    simp [h, h2]

theorem sendAndCheck_result_ok (u : user32) (out : Output)
    (st : keystrokeStatus × List INPUT_KEYBDINPUT) (h : Consistent st.1) :
    (sendAndCheck u out st).result = Except.ok () := by
  rw [sendAndCheck_result]
  split
  · rfl
  · exact (printPressedKeys_ok_iff st.1).mpr h

/-! ## Consistency is kept by every operation -/

theorem produceKeystrokeInputs_consistent (u : user32) (app : application) (now : Nat)
    (s : keystrokeStatus) (note : midiMessage) (h : Consistent s) :
    Consistent (produceKeystrokeInputs u app now s note).1 := by
  unfold Consistent at h
  have hle := pressedCard_le s.pressedKeys
  by_cases h90 : note.status = 0x90
  · unfold Consistent
    rw [press_state_eq u app now s note h90]
    simp only []
    rw [pressedCard_update_true]
    by_cases hp : s.pressedKeys (app.Keybinding note.note).VirtualKeyCode = true
    · simp only [hp, if_true]
      unfold wrapInt
      omega
    · simp only [hp, if_false]
      unfold wrapInt
      push_cast
      omega
  · by_cases h80 : note.status = 0x80
    · unfold Consistent
      rw [release_state_eq u app now s note h80]
      by_cases hp : s.pressedKeys (app.Keybinding note.note).VirtualKeyCode = true
      · have hpos := pressedCard_pos hp
        simp only [hp, if_true]
        rw [pressedCard_update_false]
        simp only [hp, if_true]
        unfold wrapInt
        omega
      · simp only [hp, if_false]
        exact h
    · rw [other_eq u app now s note h90 h80]
      exact h

theorem clearModifiersInputs_consistent (u : user32) (s : keystrokeStatus)
    (h : Consistent s) : Consistent (clearModifiersInputs u s).1 := by
  unfold Consistent
  rw [clear_state_eq]
  exact h

theorem step_consistent (u : user32) (app : application) (sys : Outcome) (op : Op)
    (h : Consistent sys.keyStatus ∧ sys.result = Except.ok ()) :
    Consistent (step u app sys op).keyStatus ∧ (step u app sys op).result = Except.ok () := by
  obtain ⟨hc, hr⟩ := h
  unfold step
  rw [hr]
  cases op with
  | message note now =>
    have hc2 := produceKeystrokeInputs_consistent u app now sys.keyStatus note hc
    simp only [produceKeystroke]
    rw [sendAndCheck_keyStatus]
    exact ⟨hc2, sendAndCheck_result_ok u sys.out _ hc2⟩
  | expiry =>
    have hc1 : Consistent (timerFired sys.keyStatus) := hc
    have hc2 := clearModifiersInputs_consistent u (timerFired sys.keyStatus) hc1
    simp only [clearModifiers]
    rw [sendAndCheck_keyStatus]
    exact ⟨hc2, sendAndCheck_result_ok u sys.out _ hc2⟩

theorem foldl_step_consistent (u : user32) (app : application) (ops : List Op) (sys : Outcome)
    (h : Consistent sys.keyStatus ∧ sys.result = Except.ok ()) :
    Consistent (ops.foldl (step u app) sys).keyStatus
      ∧ (ops.foldl (step u app) sys).result = Except.ok () := by
  induction ops generalizing sys with
  | nil => exact h
  | cons op ops ih => exact ih (step u app sys op) (step_consistent u app sys op h)

theorem initOutcome_consistent (app : application) (t0 : Nat) :
    Consistent (initOutcome app t0).keyStatus ∧ (initOutcome app t0).result = Except.ok () := by
  refine ⟨?_, rfl⟩
  unfold Consistent initOutcome initKeyStatus pressedCard
  simp

theorem flags_keyUp :
    ((KEYEVENTF_SCANCODE ||| KEYEVENTF_KEYUP) &&& KEYEVENTF_KEYUP != 0) = true := by decide

theorem flags_keyDown : (KEYEVENTF_SCANCODE &&& KEYEVENTF_KEYUP != 0) = false := by decide

theorem isKeyUp_keyRelease (u : user32) (vk : Nat) : isKeyUp (keyRelease u vk) = true :=
  flags_keyUp

theorem isKeyUp_keyPress (u : user32) (vk : Nat) : isKeyUp (keyPress u vk) = false :=
  flags_keyDown

theorem produceKeystroke_emitted (u : user32) (app : application) (now : Nat) (out : Output)
    (s : keystrokeStatus) (note : midiMessage) :
    (produceKeystroke u app now out s note).out.emitted
      = out.emitted ++ (produceKeystrokeInputs u app now s note).2 :=
  sendAndCheck_emitted u out _

theorem produceKeystroke_keyStatus (u : user32) (app : application) (now : Nat) (out : Output)
    (s : keystrokeStatus) (note : midiMessage) :
    (produceKeystroke u app now out s note).keyStatus
      = (produceKeystrokeInputs u app now s note).1 :=
  sendAndCheck_keyStatus u out _

theorem clearModifiers_emitted (u : user32) (out : Output) (s : keystrokeStatus) :
    (clearModifiers u out s).out.emitted = out.emitted ++ (clearModifiersInputs u s).2 :=
  sendAndCheck_emitted u out _

theorem clearModifiers_keyStatus (u : user32) (out : Output) (s : keystrokeStatus) :
    (clearModifiers u out s).keyStatus = (clearModifiersInputs u s).1 :=
  sendAndCheck_keyStatus u out _

theorem sendAndCheck_out_nil (u : user32) (out : Output)
    (st : keystrokeStatus × List INPUT_KEYBDINPUT) (h : st.2 = []) :
    (sendAndCheck u out st).out = out := by
  unfold sendAndCheck
  simp [h]

theorem produceKeystroke_calls (u : user32) (app : application) (now : Nat) (out : Output)
    (s : keystrokeStatus) (note : midiMessage) :
    (produceKeystroke u app now out s note).out.calls
      = out.calls ++ (produceKeystrokeInputs u app now s note).2.map (fun a => [a]) :=
  sendAndCheck_calls u out _

theorem clearModifiers_calls (u : user32) (out : Output) (s : keystrokeStatus) :
    (clearModifiers u out s).out.calls
      = out.calls ++ (clearModifiersInputs u s).2.map (fun a => [a]) :=
  sendAndCheck_calls u out _

/-! ## The keyboard seen by the receiver -/

theorem apply_at (K : Keyboard) (a : INPUT_KEYBDINPUT) (k : Nat) :
    (Keyboard.apply K a) k = if k = a.Ki.WScan then !isKeyUp a else K k := by
  unfold Keyboard.apply
  exact Function.update_apply K a.Ki.WScan (!isKeyUp a) k

theorem keyPress_scan (u : user32) (vk : Nat) : (keyPress u vk).Ki.WScan = scanCode u vk := rfl

theorem keyRelease_scan (u : user32) (vk : Nat) :
    (keyRelease u vk).Ki.WScan = scanCode u vk := rfl

theorem replay_append (l1 l2 : List INPUT_KEYBDINPUT) :
    replay (l1 ++ l2) = l2.foldl Keyboard.apply (replay l1) := by
  unfold replay
  exact List.foldl_append _ _ _ _

theorem press_keyboard (u : user32) (app : application) (now : Nat) (s : keystrokeStatus)
    (note : midiMessage) (h : note.status = 0x90) (K : Keyboard)
    (hdist : scanCode u VK_CONTROL ≠ scanCode u VK_MENU
      ∧ scanCode u VK_CONTROL ≠ scanCode u VK_SHIFT
      ∧ scanCode u VK_MENU ≠ scanCode u VK_SHIFT)
    (hbind : scanCode u (app.Keybinding note.note).VirtualKeyCode.val ≠ scanCode u VK_CONTROL
      ∧ scanCode u (app.Keybinding note.note).VirtualKeyCode.val ≠ scanCode u VK_MENU
      ∧ scanCode u (app.Keybinding note.note).VirtualKeyCode.val ≠ scanCode u VK_SHIFT)
    (hK : K (scanCode u VK_CONTROL) = s.isCtrlDown ∧ K (scanCode u VK_MENU) = s.isAltDown
      ∧ K (scanCode u VK_SHIFT) = s.isShiftDown) :
    ((produceKeystrokeInputs u app now s note).2.foldl Keyboard.apply K) (scanCode u VK_CONTROL)
        = (app.Keybinding note.note).Ctrl
    ∧ ((produceKeystrokeInputs u app now s note).2.foldl Keyboard.apply K) (scanCode u VK_MENU)
        = (app.Keybinding note.note).Alt
    ∧ ((produceKeystrokeInputs u app now s note).2.foldl Keyboard.apply K) (scanCode u VK_SHIFT)
        = (app.Keybinding note.note).Shift := by
  rw [press_inputs_eq u app now s note h]
  obtain ⟨h1, h2, h3⟩ := hdist
  obtain ⟨b1, b2, b3⟩ := hbind
  obtain ⟨k1, k2, k3⟩ := hK
  have h1s := h1.symm
  have h2s := h2.symm
  have h3s := h3.symm
  have b1s := b1.symm
  have b2s := b2.symm
  have b3s := b3.symm
  generalize (app.Keybinding note.note).Ctrl = c at *
  generalize (app.Keybinding note.note).Alt = a at *
  generalize (app.Keybinding note.note).Shift = sh at *
  generalize s.isCtrlDown = ic at *
  generalize s.isAltDown = ia at *
  generalize s.isShiftDown = ish at *
  generalize s.pressedKeys (app.Keybinding note.note).VirtualKeyCode = pk at *
  cases pk <;> cases c <;> cases a <;> cases sh <;> cases ic <;> cases ia <;> cases ish <;>
    simp [apply_at, keyPress_scan, keyRelease_scan, isKeyUp_keyPress, isKeyUp_keyRelease,
      h1, h2, h3, h1s, h2s, h3s, b1, b2, b3, b1s, b2s, b3s, k1, k2, k3]

theorem release_keyboard (u : user32) (app : application) (now : Nat) (s : keystrokeStatus)
    (note : midiMessage) (h : note.status = 0x80) (K : Keyboard)
    (hbind : scanCode u (app.Keybinding note.note).VirtualKeyCode.val ≠ scanCode u VK_CONTROL
      ∧ scanCode u (app.Keybinding note.note).VirtualKeyCode.val ≠ scanCode u VK_MENU
      ∧ scanCode u (app.Keybinding note.note).VirtualKeyCode.val ≠ scanCode u VK_SHIFT) :
    ((produceKeystrokeInputs u app now s note).2.foldl Keyboard.apply K) (scanCode u VK_CONTROL)
        = K (scanCode u VK_CONTROL)
    ∧ ((produceKeystrokeInputs u app now s note).2.foldl Keyboard.apply K) (scanCode u VK_MENU)
        = K (scanCode u VK_MENU)
    ∧ ((produceKeystrokeInputs u app now s note).2.foldl Keyboard.apply K) (scanCode u VK_SHIFT)
        = K (scanCode u VK_SHIFT) := by
  rw [release_inputs_eq u app now s note h]
  obtain ⟨b1, b2, b3⟩ := hbind
  have b1s := b1.symm
  have b2s := b2.symm
  have b3s := b3.symm
  cases s.pressedKeys (app.Keybinding note.note).VirtualKeyCode <;>
    simp [apply_at, keyRelease_scan, b1s, b2s, b3s]

theorem release_flags (u : user32) (app : application) (now : Nat) (s : keystrokeStatus)
    (note : midiMessage) (h : note.status = 0x80) :
    (produceKeystrokeInputs u app now s note).1.isCtrlDown = s.isCtrlDown
    ∧ (produceKeystrokeInputs u app now s note).1.isAltDown = s.isAltDown
    ∧ (produceKeystrokeInputs u app now s note).1.isShiftDown = s.isShiftDown := by
  rw [release_state_eq u app now s note h]
  split <;> exact ⟨rfl, rfl, rfl⟩

theorem clear_keyboard (u : user32) (s : keystrokeStatus) (K : Keyboard)
    (hdist : scanCode u VK_CONTROL ≠ scanCode u VK_MENU
      ∧ scanCode u VK_CONTROL ≠ scanCode u VK_SHIFT
      ∧ scanCode u VK_MENU ≠ scanCode u VK_SHIFT)
    (hK : K (scanCode u VK_CONTROL) = s.isCtrlDown ∧ K (scanCode u VK_MENU) = s.isAltDown
      ∧ K (scanCode u VK_SHIFT) = s.isShiftDown) :
    ((clearModifiersInputs u s).2.foldl Keyboard.apply K) (scanCode u VK_CONTROL) = false
    ∧ ((clearModifiersInputs u s).2.foldl Keyboard.apply K) (scanCode u VK_MENU) = false
    ∧ ((clearModifiersInputs u s).2.foldl Keyboard.apply K) (scanCode u VK_SHIFT) = false := by
  rw [clear_inputs_eq]
  obtain ⟨h1, h2, h3⟩ := hdist
  obtain ⟨k1, k2, k3⟩ := hK
  have h1s := h1.symm
  have h2s := h2.symm
  have h3s := h3.symm
  generalize s.isCtrlDown = ic at *
  generalize s.isAltDown = ia at *
  generalize s.isShiftDown = ish at *
  cases ic <;> cases ia <;> cases ish <;>
    simp [apply_at, keyRelease_scan, isKeyUp_keyRelease, h1, h2, h3, h1s, h2s, h3s, k1, k2, k3]

theorem step_flagsMatch (u : user32) (app : application) (sys : Outcome) (op : Op)
    (hdist : scanCode u VK_CONTROL ≠ scanCode u VK_MENU
      ∧ scanCode u VK_CONTROL ≠ scanCode u VK_SHIFT
      ∧ scanCode u VK_MENU ≠ scanCode u VK_SHIFT)
    (hbind : ∀ n : Fin 128,
      scanCode u (app.Keybinding n).VirtualKeyCode.val ≠ scanCode u VK_CONTROL
      ∧ scanCode u (app.Keybinding n).VirtualKeyCode.val ≠ scanCode u VK_MENU
      ∧ scanCode u (app.Keybinding n).VirtualKeyCode.val ≠ scanCode u VK_SHIFT)
    (h : FlagsMatch u sys) : FlagsMatch u (step u app sys op) := by
  unfold step
  cases hr : sys.result with
  | error e => exact h
  | ok v =>
    obtain ⟨f1, f2, f3⟩ := h
    cases op with
    | message note now =>
      show FlagsMatch u (produceKeystroke u app now sys.out sys.keyStatus note)
      unfold FlagsMatch
      rw [produceKeystroke_emitted, produceKeystroke_keyStatus, replay_append]
      by_cases h90 : note.status = 0x90
      · obtain ⟨p1, p2, p3⟩ := press_keyboard u app now sys.keyStatus note h90
          (replay sys.out.emitted) hdist (hbind note.note) ⟨f1.symm, f2.symm, f3.symm⟩
        rw [p1, p2, p3, press_state_eq u app now sys.keyStatus note h90]
        exact ⟨rfl, rfl, rfl⟩
      · by_cases h80 : note.status = 0x80
        · obtain ⟨p1, p2, p3⟩ := release_keyboard u app now sys.keyStatus note h80
            (replay sys.out.emitted) (hbind note.note)
          obtain ⟨q1, q2, q3⟩ := release_flags u app now sys.keyStatus note h80
          rw [p1, p2, p3, q1, q2, q3]
          exact ⟨f1, f2, f3⟩
        · rw [other_eq u app now sys.keyStatus note h90 h80]
          exact ⟨f1, f2, f3⟩
    | expiry =>
      show FlagsMatch u (clearModifiers u sys.out (timerFired sys.keyStatus))
      unfold FlagsMatch
      rw [clearModifiers_emitted, clearModifiers_keyStatus, replay_append]
      obtain ⟨p1, p2, p3⟩ := clear_keyboard u (timerFired sys.keyStatus)
        (replay sys.out.emitted) hdist ⟨f1.symm, f2.symm, f3.symm⟩
      rw [p1, p2, p3, clear_state_eq]
      exact ⟨rfl, rfl, rfl⟩

theorem foldl_step_flagsMatch (u : user32) (app : application) (ops : List Op) (sys : Outcome)
    (hdist : scanCode u VK_CONTROL ≠ scanCode u VK_MENU
      ∧ scanCode u VK_CONTROL ≠ scanCode u VK_SHIFT
      ∧ scanCode u VK_MENU ≠ scanCode u VK_SHIFT)
    (hbind : ∀ n : Fin 128,
      scanCode u (app.Keybinding n).VirtualKeyCode.val ≠ scanCode u VK_CONTROL
      ∧ scanCode u (app.Keybinding n).VirtualKeyCode.val ≠ scanCode u VK_MENU
      ∧ scanCode u (app.Keybinding n).VirtualKeyCode.val ≠ scanCode u VK_SHIFT)
    (h : FlagsMatch u sys) : FlagsMatch u (ops.foldl (step u app) sys) := by
  induction ops generalizing sys with
  | nil => exact h
  | cons op ops ih => exact ih (step u app sys op) (step_flagsMatch u app sys op hdist hbind h)

theorem initOutcome_flagsMatch (u : user32) (app : application) (t0 : Nat) :
    FlagsMatch u (initOutcome app t0) :=
  ⟨rfl, rfl, rfl⟩

theorem run_snoc (u : user32) (app : application) (t0 : Nat) (ops : List Op) (op : Op) :
    run u app t0 (ops ++ [op]) = step u app (run u app t0 ops) op := by
  unfold run
  rw [List.foldl_append]
  rfl

theorem run_press_flags (u : user32) (app : application) (t0 : Nat) (ops : List Op)
    (n : Fin 128) (now : Nat) :
    (run u app t0 (ops ++ [Op.message { status := 0x90, note := n } now])).keyStatus.isCtrlDown
        = (app.Keybinding n).Ctrl
    ∧ (run u app t0 (ops ++ [Op.message { status := 0x90, note := n } now])).keyStatus.isAltDown
        = (app.Keybinding n).Alt
    ∧ (run u app t0 (ops ++ [Op.message { status := 0x90, note := n } now])).keyStatus.isShiftDown
        = (app.Keybinding n).Shift := by
  have hok := (foldl_step_consistent u app ops (initOutcome app t0)
    (initOutcome_consistent app t0)).2
  rw [run_snoc]
  unfold step
  have hok2 : (run u app t0 ops).result = Except.ok () := hok
  rw [hok2]
  show (produceKeystroke u app now _ _ _).keyStatus.isCtrlDown = _
    ∧ (produceKeystroke u app now _ _ _).keyStatus.isAltDown = _
    ∧ (produceKeystroke u app now _ _ _).keyStatus.isShiftDown = _
  rw [produceKeystroke_keyStatus, press_state_eq u app now _ _ rfl]
  exact ⟨rfl, rfl, rfl⟩

theorem printPressedKeys_error_iff (s : keystrokeStatus) :
    (∃ e, printPressedKeys s = Except.error e) ↔ ¬ Consistent s := by
  rw [← printPressedKeys_ok_iff]
  cases h : printPressedKeys s with
  | error e => simp
  | ok v => simp

theorem printPressedKeys_error (s : keystrokeStatus) (h : ¬ Consistent s) :
    printPressedKeys s
      = Except.error { counted := (pressedCard s.pressedKeys : Int),
                       recorded := s.pressedKeysCount } := by
  unfold Consistent at h
  have h2 : ¬ (pressedCard s.pressedKeys : Int) = s.pressedKeysCount := fun e => h e.symm
  unfold printPressedKeys
  rw [countPressedKeys_eq_card]
  simp [h2]

theorem pressedCard_none : pressedCard (fun _ => false) = 0 := by
  unfold pressedCard
  simp

/-! ## The parser contract -/

theorem effectiveBitSize_of_pos {bits : Nat} (h : 1 ≤ bits) : effectiveBitSize bits = bits := by
  unfold effectiveBitSize
  rw [if_neg (by omega)]

theorem strconvOf_contract (litU : String → Option Nat) (litI : String → Option Int) :
    StrconvContract litU litI (strconvOf litU litI) := by
  constructor
  · intro s bits v h1 h64
    have hbig : ¬ 64 < bits := by omega
    show (if 64 < bits then (Except.error "invalid bit size" : Except String Nat)
      else
        match litU s with
        | some v =>
          if v < 2 ^ effectiveBitSize bits then Except.ok v
          else Except.error "value out of range"
        | none => Except.error "invalid syntax") = Except.ok v ↔ _
    rw [if_neg hbig, effectiveBitSize_of_pos h1]
    cases hl : litU s with
    | none => simp
    | some w =>
      by_cases hw : w < 2 ^ bits
      · simp only [hw, if_true, Except.ok.injEq, Option.some.injEq]
        constructor
        · intro e
          subst e
          exact ⟨rfl, hw⟩
        · intro e
          exact e.1
      · simp only [hw, if_false, Option.some.injEq]
        constructor
        · intro e
          cases e
        · intro e
          exact absurd (e.1 ▸ e.2) hw
  · intro s bits v h1 h64
    have hbig : ¬ 64 < bits := by omega
    show (if 64 < bits then (Except.error "invalid bit size" : Except String Int)
      else
        match litI s with
        | some v =>
          if -(2 ^ (effectiveBitSize bits - 1)) ≤ v ∧ v < 2 ^ (effectiveBitSize bits - 1)
          then Except.ok v
          else Except.error "value out of range"
        | none => Except.error "invalid syntax") = Except.ok v ↔ _
    rw [if_neg hbig, effectiveBitSize_of_pos h1]
    cases hl : litI s with
    | none => simp
    | some w =>
      by_cases hw : -(2 ^ (bits - 1)) ≤ w ∧ w < 2 ^ (bits - 1)
      · simp only [hw, and_self, if_true, Except.ok.injEq, Option.some.injEq]
        constructor
        · intro e
          subst e
          exact ⟨rfl, hw⟩
        · intro e
          exact e.1
      · simp only [hw, if_false, Option.some.injEq]
        constructor
        · intro e
          cases e
        · intro e
          exact absurd (e.1 ▸ e.2) hw

/-- The sample parser at the two ends of the bit sizes, as the library: bit size 0
is the size of `int` and returns the value, bit size 65 is refused. -/
theorem strconvOf_bitSize_ends :
    (strconvOf sampleLitU sampleLitI).ParseUint "5" 0 0 = Except.ok 5
    ∧ (strconvOf sampleLitU sampleLitI).ParseUint "5" 0 65 = Except.error "invalid bit size"
    ∧ (strconvOf sampleLitU sampleLitI).ParseInt "-128" 0 0 = Except.ok (-128)
    ∧ (strconvOf sampleLitU sampleLitI).ParseInt "5" 0 65 = Except.error "invalid bit size" := by
  refine ⟨?_, ?_, ?_, ?_⟩ <;> rfl

/-! ## The idle timer and the key state -/

theorem step_message_ok (u : user32) (app : application) (sys : Outcome) (note : midiMessage)
    (now : Nat) (h : sys.result = Except.ok ()) :
    step u app sys (Op.message note now)
      = produceKeystroke u app now sys.out sys.keyStatus note := by
  unfold step
  rw [h]

theorem step_expiry_ok (u : user32) (app : application) (sys : Outcome)
    (h : sys.result = Except.ok ()) :
    step u app sys Op.expiry = clearModifiers u sys.out (timerFired sys.keyStatus) := by
  unfold step
  rw [h]

theorem armed_none (s : keystrokeStatus) (h : s.clearModifiersTimer = { deadline := none }) :
    armed s = false := by
  unfold armed
  rw [h]
  rfl

theorem armed_some (s : keystrokeStatus) (t : Nat)
    (h : s.clearModifiersTimer = { deadline := some t }) : armed s = true := by
  unfold armed
  rw [h]
  rfl

theorem press_idleInv (u : user32) (app : application) (now : Nat) (s : keystrokeStatus)
    (note : midiMessage) (h90 : note.status = 0x90) (hc : Consistent s) :
    IdleInv (produceKeystrokeInputs u app now s note).1 := by
  have hc2 := produceKeystrokeInputs_consistent u app now s note hc
  unfold Consistent at hc2
  have hst := press_state_eq u app now s note h90
  have hpos : 0 < pressedCard (produceKeystrokeInputs u app now s note).1.pressedKeys := by
    rw [hst]
    exact pressedCard_pos (Function.update_same _ _ _)
  have hna : armed (produceKeystrokeInputs u app now s note).1 = false :=
    armed_none _ (by rw [hst])
  constructor
  · intro ha
    rw [hna] at ha
    cases ha
  · intro h0
    omega

theorem release_idleInv (u : user32) (app : application) (now : Nat) (s : keystrokeStatus)
    (note : midiMessage) (h80 : note.status = 0x80) (hc : Consistent s) (hi : IdleInv s) :
    IdleInv (produceKeystrokeInputs u app now s note).1 := by
  have hst := release_state_eq u app now s note h80
  unfold Consistent at hc
  obtain ⟨hi1, hi2⟩ := hi
  by_cases hp : s.pressedKeys (app.Keybinding note.note).VirtualKeyCode = true
  · simp only [hp, if_true] at hst
    have hpos := pressedCard_pos hp
    have hnot : ¬ armed s = true := fun ha => by
      have := hi1 ha
      omega
    by_cases hz : wrapInt (s.pressedKeysCount - 1) = 0
    · rw [if_pos hz] at hst
      have ha : armed (produceKeystrokeInputs u app now s note).1 = true :=
        armed_some _ (now + app.IdleDuration) (by rw [hst])
      exact ⟨fun _ => by rw [hst]; exact hz, fun _ _ => ha⟩
    · rw [if_neg hz] at hst
      have hcount : (produceKeystrokeInputs u app now s note).1.pressedKeysCount
          = wrapInt (s.pressedKeysCount - 1) := by rw [hst]
      have harm : armed (produceKeystrokeInputs u app now s note).1 = armed s := by
        rw [hst]
        rfl
      constructor
      · intro ha
        rw [harm] at ha
        exact absurd ha hnot
      · intro h0
        rw [hcount] at h0
        exact absurd h0 hz
  · have hpf : s.pressedKeys (app.Keybinding note.note).VirtualKeyCode = false := by
      cases hv : s.pressedKeys (app.Keybinding note.note).VirtualKeyCode with
      | false => rfl
      | true => exact absurd hv hp
    simp only [hpf, Bool.false_eq_true, if_false] at hst
    have hcount : (produceKeystrokeInputs u app now s note).1.pressedKeysCount
        = s.pressedKeysCount := by rw [hst]
    by_cases hz : s.pressedKeysCount = 0
    · rw [if_pos hz] at hst
      have ha : armed (produceKeystrokeInputs u app now s note).1 = true :=
        armed_some _ (now + app.IdleDuration) (by rw [hst])
      exact ⟨fun _ => by rw [hcount, hz], fun _ _ => ha⟩
    · rw [if_neg hz] at hst
      constructor
      · intro ha
        rw [hst] at ha
        rw [hcount]
        exact hi1 ha
      · intro h0
        rw [hcount] at h0
        exact absurd h0 hz

theorem clear_idleInv (u : user32) (s : keystrokeStatus) :
    IdleInv (clearModifiersInputs u (timerFired s)).1 := by
  have hst := clear_state_eq u (timerFired s)
  have hna : armed (clearModifiersInputs u (timerFired s)).1 = false :=
    armed_none _ (by rw [hst]; rfl)
  constructor
  · intro ha
    rw [hna] at ha
    cases ha
  · intro _ hflag
    rw [hst] at hflag
    rcases hflag with h | h | h <;> cases h

theorem step_idleInv (u : user32) (app : application) (sys : Outcome) (op : Op)
    (hc : Consistent sys.keyStatus ∧ sys.result = Except.ok ())
    (hi : IdleInv sys.keyStatus) : IdleInv (step u app sys op).keyStatus := by
  obtain ⟨hcons, hr⟩ := hc
  cases op with
  | message note now =>
    rw [step_message_ok u app sys note now hr, produceKeystroke_keyStatus]
    by_cases h90 : note.status = 0x90
    · exact press_idleInv u app now sys.keyStatus note h90 hcons
    · by_cases h80 : note.status = 0x80
      · exact release_idleInv u app now sys.keyStatus note h80 hcons hi
      · rw [other_eq u app now sys.keyStatus note h90 h80]
        exact hi
  | expiry =>
    rw [step_expiry_ok u app sys hr, clearModifiers_keyStatus]
    exact clear_idleInv u sys.keyStatus

theorem initOutcome_idleInv (app : application) (t0 : Nat) :
    IdleInv (initOutcome app t0).keyStatus := by
  constructor
  · intro _
    rfl
  · intro _ _
    rfl

theorem reachable_inv (u : user32) (app : application) (t0 : Nat) (sys : Outcome)
    (h : Reachable u app t0 sys) :
    (Consistent sys.keyStatus ∧ sys.result = Except.ok ()) ∧ IdleInv sys.keyStatus := by
  unfold Reachable at h
  induction h with
  | refl => exact ⟨initOutcome_consistent app t0, initOutcome_idleInv app t0⟩
  | tail _ hstep ih =>
    cases hstep with
    | message note now =>
      exact ⟨step_consistent u app _ _ ih.1, step_idleInv u app _ _ ih.1 ih.2⟩
    | expiry ha =>
      exact ⟨step_consistent u app _ _ ih.1, step_idleInv u app _ _ ih.1 ih.2⟩

theorem pressedCard_zero {p : Fin 256 → Bool} (h : pressedCard p = 0) (k : Fin 256) :
    p k = false := by
  cases hk : p k with
  | false => rfl
  | true =>
    have := pressedCard_pos hk
    omega

theorem sampleIdle_eq :
    sampleIdle
      = produceKeystroke sampleUser32 sampleLetters 20
          (produceKeystroke sampleUser32 sampleLetters 10 (initOutcome sampleLetters 0).out
            (initOutcome sampleLetters 0).keyStatus { status := 0x90, note := 0 }).out
          (produceKeystroke sampleUser32 sampleLetters 10 (initOutcome sampleLetters 0).out
            (initOutcome sampleLetters 0).keyStatus { status := 0x90, note := 0 }).keyStatus
          { status := 0x80, note := 0 } := by
  have h0 := initOutcome_consistent sampleLetters 0
  have h1 := (step_consistent sampleUser32 sampleLetters (initOutcome sampleLetters 0)
    (Op.message { status := 0x90, note := 0 } 10) h0).2
  unfold sampleIdle
  rw [step_message_ok sampleUser32 sampleLetters _ _ _ h1,
    step_message_ok sampleUser32 sampleLetters _ _ _ h0.2]

theorem sampleIdle_reachable : Reachable sampleUser32 sampleLetters 0 sampleIdle :=
  Relation.ReflTransGen.tail
    (Relation.ReflTransGen.tail Relation.ReflTransGen.refl
      (Step.message (initOutcome sampleLetters 0) { status := 0x90, note := 0 } 10))
    (Step.message _ { status := 0x80, note := 0 } 20)

theorem sampleIdle_state :
    sampleIdle.keyStatus.pressedKeysCount = 0 ∧ sampleIdle.keyStatus.isCtrlDown = true
      ∧ armed sampleIdle.keyStatus = true := by
  rw [sampleIdle_eq]
  decide

/-- How the operations move the idle timer: it is armed at the start, disarmed by a
press event, armed by a release event exactly when `pressedKeysCount` is 0
afterwards (and otherwise left as it was), and disarmed by an expiry. -/
theorem timer_rules (u : user32) (app : application) (now t0 : Nat) (s : keystrokeStatus)
    (n : Fin 128) :
    armed (initOutcome app t0).keyStatus = true
    ∧ armed (produceKeystrokeInputs u app now s { status := 0x90, note := n }).1 = false
    ∧ armed (produceKeystrokeInputs u app now s { status := 0x80, note := n }).1
        = (if (produceKeystrokeInputs u app now s
              { status := 0x80, note := n }).1.pressedKeysCount = 0
            then true else armed s)
    ∧ armed (clearModifiersInputs u (timerFired s)).1 = false := by
  refine ⟨rfl, ?_, ?_, ?_⟩
  · exact armed_none _ (by rw [press_state_eq u app now s _ rfl])
  · rw [release_state_eq u app now s { status := 0x80, note := n } rfl]
    by_cases hp : s.pressedKeys (app.Keybinding n).VirtualKeyCode = true
    · simp only [hp, if_true]
      by_cases hz : wrapInt (s.pressedKeysCount - 1) = 0
      · simp only [hz, if_true]
        rfl
      · simp only [hz, if_false]
        rfl
    · have hpf : s.pressedKeys (app.Keybinding n).VirtualKeyCode = false := by
        cases hv : s.pressedKeys (app.Keybinding n).VirtualKeyCode with
        | false => rfl
        | true => exact absurd hv hp
      simp only [hpf, Bool.false_eq_true, if_false]
      by_cases hz : s.pressedKeysCount = 0
      · simp only [hz, if_true]
        rfl
      · simp only [hz, if_false]
  · exact armed_none _ (by rw [clear_state_eq]; rfl)

/-- The actions a press event builds between the release and the press of a
re-triggered key: they are actions of Ctrl, Alt or Shift, and none of them has the
scan code `key` exactly when `key` is not the scan code of a modifier whose
required flag differs from the recorded one. -/
theorem retrigger_between (u : user32) (ic ia ish c a sh : Bool) (key : Nat) :
    (∀ x ∈ ((if ic = c then []
              else [if c = true then keyPress u VK_CONTROL else keyRelease u VK_CONTROL])
          ++ (if ia = a then []
              else [if a = true then keyPress u VK_MENU else keyRelease u VK_MENU]))
          ++ (if ish = sh then []
              else [if sh = true then keyPress u VK_SHIFT else keyRelease u VK_SHIFT]),
        x.Ki.WScan = scanCode u VK_CONTROL ∨ x.Ki.WScan = scanCode u VK_MENU
          ∨ x.Ki.WScan = scanCode u VK_SHIFT)
    ∧ ((∀ x ∈ ((if ic = c then []
              else [if c = true then keyPress u VK_CONTROL else keyRelease u VK_CONTROL])
          ++ (if ia = a then []
              else [if a = true then keyPress u VK_MENU else keyRelease u VK_MENU]))
          ++ (if ish = sh then []
              else [if sh = true then keyPress u VK_SHIFT else keyRelease u VK_SHIFT]),
          x.Ki.WScan ≠ key)
        ↔ ((ic ≠ c → key ≠ scanCode u VK_CONTROL) ∧ (ia ≠ a → key ≠ scanCode u VK_MENU)
            ∧ (ish ≠ sh → key ≠ scanCode u VK_SHIFT))) := by
  cases ic <;> cases ia <;> cases ish <;> cases c <;> cases a <;> cases sh <;>
    simp [keyPress_scan, keyRelease_scan, eq_comm]

theorem sampleExpired_reachable :
    Reachable sampleUser32 sampleLetters 0 (step sampleUser32 sampleLetters sampleIdle Op.expiry) :=
  Relation.ReflTransGen.tail sampleIdle_reachable (Step.expiry sampleIdle sampleIdle_state.2.2)

theorem sampleRearmed_reachable : Reachable sampleUser32 sampleLetters 0 sampleRearmed :=
  Relation.ReflTransGen.tail sampleExpired_reachable
    (Step.message _ { status := 0x80, note := 5 } 2000)

theorem sampleRearmed_armed : armed sampleRearmed.keyStatus = true := by
  have hI := (reachable_inv sampleUser32 sampleLetters 0 _ sampleIdle_reachable).1.2
  have hE := (reachable_inv sampleUser32 sampleLetters 0 _ sampleExpired_reachable).1.2
  unfold sampleRearmed
  rw [step_message_ok sampleUser32 sampleLetters _ _ _ hE,
    step_expiry_ok sampleUser32 sampleLetters _ hI, sampleIdle_eq]
  decide

/-! ## The claims -/

/-- C1: for every binding table and every finite sequence of press events, release
events, other messages and idle-timer expiries processed from the initial state,
`pressedKeysCount` equals the number of indices `k` with `pressedKeys[k] = true`
(and the consistency check has never panicked). -/
theorem C1_pressedKeysCount_invariant (u : user32) (app : application) (t0 : Nat)
    (ops : List Op) :
    (run u app t0 ops).keyStatus.pressedKeysCount
        = ((Finset.univ.filter
            (fun k => (run u app t0 ops).keyStatus.pressedKeys k = true)).card : Int)
      ∧ (run u app t0 ops).result = Except.ok () :=
  foldl_step_consistent u app ops (initOutcome app t0) (initOutcome_consistent app t0)

/-- C2: for every key state and every binding, the actions `produceKeystroke`
builds for a press event (status 0x90) are, in this order: a release of the bound
key exactly when that key is marked pressed; for Ctrl, then Alt, then Shift, one
action exactly when the required flag differs from the recorded flag, a press when
the binding requires the modifier and a release otherwise; and a press of the
bound key as the last action. The list holds nothing else, and it is what is
handed to the output collaborator. -/
theorem C2_press_actions (u : user32) (app : application) (now : Nat) (out : Output)
    (s : keystrokeStatus) (n : Fin 128) :
    (produceKeystrokeInputs u app now s { status := 0x90, note := n }).2 =
      (if s.pressedKeys (app.Keybinding n).VirtualKeyCode = true
        then [keyRelease u (app.Keybinding n).VirtualKeyCode.val] else [])
      ++ (if s.isCtrlDown = (app.Keybinding n).Ctrl then []
          else [if (app.Keybinding n).Ctrl = true then keyPress u VK_CONTROL
                else keyRelease u VK_CONTROL])
      ++ (if s.isAltDown = (app.Keybinding n).Alt then []
          else [if (app.Keybinding n).Alt = true then keyPress u VK_MENU
                else keyRelease u VK_MENU])
      ++ (if s.isShiftDown = (app.Keybinding n).Shift then []
          else [if (app.Keybinding n).Shift = true then keyPress u VK_SHIFT
                else keyRelease u VK_SHIFT])
      ++ [keyPress u (app.Keybinding n).VirtualKeyCode.val]
    ∧ (produceKeystroke u app now out s { status := 0x90, note := n }).out.emitted
        = out.emitted ++ (produceKeystrokeInputs u app now s { status := 0x90, note := n }).2 :=
  ⟨press_inputs_eq u app now s { status := 0x90, note := n } rfl,
    produceKeystroke_emitted u app now out s _⟩

/-- C3, as stated, fails: with note 1 of `sampleApp` bound to the Ctrl key itself
(no modifier required), the Ctrl key marked pressed and Ctrl recorded as down, a
press of note 1 builds release Ctrl, release Ctrl, press Ctrl: the action between
the first release and the last press concerns the bound key as well. -/
theorem C3_counterexample :
    sampleHeld.pressedKeys (sampleApp.Keybinding 1).VirtualKeyCode = true
    ∧ (produceKeystrokeInputs sampleUser32 sampleApp 3 sampleHeld { status := 0x90, note := 1 }).2
        = [keyRelease sampleUser32 0x11, keyRelease sampleUser32 VK_CONTROL,
            keyPress sampleUser32 0x11]
    ∧ ¬ ∃ mid : List INPUT_KEYBDINPUT,
        (produceKeystrokeInputs sampleUser32 sampleApp 3 sampleHeld
            { status := 0x90, note := 1 }).2
          = keyRelease sampleUser32 (sampleApp.Keybinding 1).VirtualKeyCode.val
              :: (mid ++ [keyPress sampleUser32 (sampleApp.Keybinding 1).VirtualKeyCode.val])
        ∧ ∀ a ∈ mid,
            a.Ki.WScan ≠ scanCode sampleUser32 (sampleApp.Keybinding 1).VirtualKeyCode.val := by
  have hl : (produceKeystrokeInputs sampleUser32 sampleApp 3 sampleHeld
      { status := 0x90, note := 1 }).2
      = [keyRelease sampleUser32 0x11, keyRelease sampleUser32 VK_CONTROL,
          keyPress sampleUser32 0x11] := by decide
  refine ⟨by decide, hl, ?_⟩
  rintro ⟨mid, h, hmid⟩
  rw [hl] at h
  cases mid with
  | nil => simp at h
  | cons a t =>
    have ha : keyRelease sampleUser32 VK_CONTROL = a := by
      simp only [List.cons_append, List.cons.injEq] at h
      exact h.2.1
    exact hmid a (List.mem_cons_self _ _) (by rw [← ha]; decide)

/-- C3, amended: for every key state in which the bound key of a note is marked
pressed, a press event for that note sends a release of the key first and a press
of the key last, and `pressedKeysCount` and the array `pressedKeys` are as before
the event; every action in between is an action of Ctrl, Alt or Shift, and no
action in between concerns the bound key exactly when the key does not have the
scan code of a modifier whose required flag differs from the recorded one, in
particular when the bound key is none of Ctrl, Alt and Shift. -/
theorem C3_retrigger (u : user32) (app : application) (now : Nat) (out : Output)
    (s : keystrokeStatus) (n : Fin 128)
    (hp : s.pressedKeys (app.Keybinding n).VirtualKeyCode = true)
    (hint : isGoInt s.pressedKeysCount) :
    (∃ mid : List INPUT_KEYBDINPUT,
      (produceKeystrokeInputs u app now s { status := 0x90, note := n }).2
          = keyRelease u (app.Keybinding n).VirtualKeyCode.val
              :: (mid ++ [keyPress u (app.Keybinding n).VirtualKeyCode.val])
        ∧ (produceKeystroke u app now out s { status := 0x90, note := n }).out.emitted
          = out.emitted ++ keyRelease u (app.Keybinding n).VirtualKeyCode.val
              :: (mid ++ [keyPress u (app.Keybinding n).VirtualKeyCode.val])
        ∧ (∀ a ∈ mid, a.Ki.WScan = scanCode u VK_CONTROL ∨ a.Ki.WScan = scanCode u VK_MENU
            ∨ a.Ki.WScan = scanCode u VK_SHIFT)
        ∧ ((∀ a ∈ mid, a.Ki.WScan ≠ scanCode u (app.Keybinding n).VirtualKeyCode.val)
            ↔ ((s.isCtrlDown ≠ (app.Keybinding n).Ctrl →
                  scanCode u (app.Keybinding n).VirtualKeyCode.val ≠ scanCode u VK_CONTROL)
                ∧ (s.isAltDown ≠ (app.Keybinding n).Alt →
                  scanCode u (app.Keybinding n).VirtualKeyCode.val ≠ scanCode u VK_MENU)
                ∧ (s.isShiftDown ≠ (app.Keybinding n).Shift →
                  scanCode u (app.Keybinding n).VirtualKeyCode.val ≠ scanCode u VK_SHIFT)))
        ∧ ((scanCode u (app.Keybinding n).VirtualKeyCode.val ≠ scanCode u VK_CONTROL
              ∧ scanCode u (app.Keybinding n).VirtualKeyCode.val ≠ scanCode u VK_MENU
              ∧ scanCode u (app.Keybinding n).VirtualKeyCode.val ≠ scanCode u VK_SHIFT) →
            ∀ a ∈ mid, a.Ki.WScan ≠ scanCode u (app.Keybinding n).VirtualKeyCode.val))
    ∧ (produceKeystroke u app now out s { status := 0x90, note := n }).keyStatus.pressedKeysCount
        = s.pressedKeysCount
    ∧ (produceKeystroke u app now out s { status := 0x90, note := n }).keyStatus.pressedKeys
        = s.pressedKeys := by
  have hl := press_inputs_eq u app now s { status := 0x90, note := n } rfl
  have hst := press_state_eq u app now s { status := 0x90, note := n } rfl
  simp only [hp, if_true] at hl hst
  have hiff := retrigger_between u s.isCtrlDown s.isAltDown s.isShiftDown
    (app.Keybinding n).Ctrl (app.Keybinding n).Alt (app.Keybinding n).Shift
    (scanCode u (app.Keybinding n).VirtualKeyCode.val)
  refine ⟨⟨((if s.isCtrlDown = (app.Keybinding n).Ctrl then []
          else [if (app.Keybinding n).Ctrl = true then keyPress u VK_CONTROL
                else keyRelease u VK_CONTROL])
      ++ (if s.isAltDown = (app.Keybinding n).Alt then []
          else [if (app.Keybinding n).Alt = true then keyPress u VK_MENU
                else keyRelease u VK_MENU]))
      ++ (if s.isShiftDown = (app.Keybinding n).Shift then []
          else [if (app.Keybinding n).Shift = true then keyPress u VK_SHIFT
                else keyRelease u VK_SHIFT]), ?_, ?_, hiff.1, hiff.2, ?_⟩, ?_, ?_⟩
  · rw [hl]
    simp only [List.append_assoc, List.singleton_append]
    rfl
  · rw [produceKeystroke_emitted, hl]
    simp only [List.append_assoc, List.singleton_append]
    rfl
  · intro hkey
    exact hiff.2.mpr ⟨fun _ => hkey.1, fun _ => hkey.2.1, fun _ => hkey.2.2⟩
  · rw [produceKeystroke_keyStatus, hst]
    exact wrapInt_dec_inc hint
  · rw [produceKeystroke_keyStatus, hst]
    show Function.update s.pressedKeys (app.Keybinding n).VirtualKeyCode true = s.pressedKeys
    rw [← hp]
    exact Function.update_eq_self _ _

/-- An instance of C3 as amended: note 0 of `sampleApp` (Ctrl+A) pressed again while
the key A is held. -/
theorem C3_retrigger_witness :
    sampleHeld.pressedKeys (sampleApp.Keybinding 0).VirtualKeyCode = true
    ∧ isGoInt sampleHeld.pressedKeysCount
    ∧ (produceKeystroke sampleUser32 sampleApp 3 { calls := [], errors := [] } sampleHeld
          { status := 0x90, note := 0 }).keyStatus.pressedKeysCount = sampleHeld.pressedKeysCount
    ∧ (produceKeystroke sampleUser32 sampleApp 3 { calls := [], errors := [] } sampleHeld
          { status := 0x90, note := 0 }).keyStatus.pressedKeys = sampleHeld.pressedKeys :=
  ⟨by decide, by decide,
    (C3_retrigger sampleUser32 sampleApp 3 { calls := [], errors := [] } sampleHeld 0
      (by decide) (by decide)).2⟩

/-- C4: for every key state in which the bound key is marked pressed, a release
event (status 0x80) for that note builds and sends exactly one action, the release
of the bound key; sets `pressedKeys[key]` to false and leaves every other entry
as it was; decrements `pressedKeysCount` by one (in Go `int` arithmetic, which is
the mathematical decrement unless the count is the least `int`); and leaves the
three modifier flags as they were, whatever the new count is. -/
theorem C4_release_held (u : user32) (app : application) (now : Nat) (out : Output)
    (s : keystrokeStatus) (n : Fin 128)
    (hp : s.pressedKeys (app.Keybinding n).VirtualKeyCode = true) :
    (produceKeystrokeInputs u app now s { status := 0x80, note := n }).2
        = [keyRelease u (app.Keybinding n).VirtualKeyCode.val]
    ∧ (produceKeystroke u app now out s { status := 0x80, note := n }).out.calls
        = out.calls ++ [[keyRelease u (app.Keybinding n).VirtualKeyCode.val]]
    ∧ (produceKeystroke u app now out s { status := 0x80, note := n }).keyStatus.pressedKeys
          (app.Keybinding n).VirtualKeyCode = false
    ∧ (∀ k : Fin 256, k ≠ (app.Keybinding n).VirtualKeyCode →
        (produceKeystroke u app now out s { status := 0x80, note := n }).keyStatus.pressedKeys k
          = s.pressedKeys k)
    ∧ (produceKeystroke u app now out s { status := 0x80, note := n }).keyStatus.pressedKeysCount
        = wrapInt (s.pressedKeysCount - 1)
    ∧ (isGoInt s.pressedKeysCount → s.pressedKeysCount ≠ -9223372036854775808 →
        (produceKeystroke u app now out s { status := 0x80, note := n }).keyStatus.pressedKeysCount
          = s.pressedKeysCount - 1)
    ∧ (produceKeystroke u app now out s { status := 0x80, note := n }).keyStatus.isCtrlDown
        = s.isCtrlDown
    ∧ (produceKeystroke u app now out s { status := 0x80, note := n }).keyStatus.isAltDown
        = s.isAltDown
    ∧ (produceKeystroke u app now out s { status := 0x80, note := n }).keyStatus.isShiftDown
        = s.isShiftDown := by
  have hl := release_inputs_eq u app now s { status := 0x80, note := n } rfl
  have hst := release_state_eq u app now s { status := 0x80, note := n } rfl
  simp only [hp, if_true] at hl hst
  rw [produceKeystroke_calls, produceKeystroke_keyStatus, hl, hst]
  refine ⟨rfl, rfl, ?_, ?_, rfl, ?_, rfl, rfl, rfl⟩
  · exact Function.update_same _ _ _
  · intro k hk
    exact Function.update_noteq hk _ _
  · intro hint hmin
    show wrapInt (s.pressedKeysCount - 1) = s.pressedKeysCount - 1
    unfold isGoInt at hint
    unfold wrapInt
    omega

/-- An instance of C4: note 0 of `sampleApp` released while the key A is held. -/
theorem C4_release_held_witness :
    sampleHeld.pressedKeys (sampleApp.Keybinding 0).VirtualKeyCode = true
    ∧ (produceKeystroke sampleUser32 sampleApp 3 { calls := [], errors := [] } sampleHeld
          { status := 0x80, note := 0 }).out.calls
        = [] ++ [[keyRelease sampleUser32 (sampleApp.Keybinding 0).VirtualKeyCode.val]]
    ∧ (produceKeystroke sampleUser32 sampleApp 3 { calls := [], errors := [] } sampleHeld
          { status := 0x80, note := 0 }).keyStatus.pressedKeys
          (sampleApp.Keybinding 0).VirtualKeyCode = false :=
  ⟨by decide,
    (C4_release_held sampleUser32 sampleApp 3 { calls := [], errors := [] } sampleHeld 0
      (by decide)).2.1,
    (C4_release_held sampleUser32 sampleApp 3 { calls := [], errors := [] } sampleHeld 0
      (by decide)).2.2.1⟩

/-- C5: for every key state, `clearModifiers` builds and sends a release for
exactly those of Ctrl, Alt, Shift whose recorded flag is true, in the order Ctrl,
Alt, Shift, and nothing else; afterwards the three flags are false and
`pressedKeys` and `pressedKeysCount` are as before. A second expiry right after
builds nothing and leaves the output collaborator untouched. -/
theorem C5_clearModifiers (u : user32) (out : Output) (s : keystrokeStatus) :
    (clearModifiersInputs u s).2
        = (if s.isCtrlDown = true then [keyRelease u VK_CONTROL] else [])
          ++ (if s.isAltDown = true then [keyRelease u VK_MENU] else [])
          ++ (if s.isShiftDown = true then [keyRelease u VK_SHIFT] else [])
    ∧ (clearModifiers u out s).out.calls
        = out.calls ++ ((if s.isCtrlDown = true then [[keyRelease u VK_CONTROL]] else [])
          ++ (if s.isAltDown = true then [[keyRelease u VK_MENU]] else [])
          ++ (if s.isShiftDown = true then [[keyRelease u VK_SHIFT]] else []))
    ∧ (clearModifiers u out s).keyStatus.isCtrlDown = false
    ∧ (clearModifiers u out s).keyStatus.isAltDown = false
    ∧ (clearModifiers u out s).keyStatus.isShiftDown = false
    ∧ (clearModifiers u out s).keyStatus.pressedKeys = s.pressedKeys
    ∧ (clearModifiers u out s).keyStatus.pressedKeysCount = s.pressedKeysCount
    ∧ (clearModifiersInputs u (clearModifiers u out s).keyStatus).2 = []
    ∧ (clearModifiers u (clearModifiers u out s).out (clearModifiers u out s).keyStatus).out
        = (clearModifiers u out s).out := by
  have hnil : (clearModifiersInputs u (clearModifiers u out s).keyStatus).2 = [] := by
    rw [clear_inputs_eq, clearModifiers_keyStatus, clear_state_eq]
    rfl
  refine ⟨clear_inputs_eq u s, ?_, ?_, ?_, ?_, ?_, ?_, hnil, ?_⟩
  · rw [clearModifiers_calls, clear_inputs_eq]
    cases s.isCtrlDown <;> cases s.isAltDown <;> cases s.isShiftDown <;> rfl
  · rw [clearModifiers_keyStatus, clear_state_eq]
  · rw [clearModifiers_keyStatus, clear_state_eq]
  · rw [clearModifiers_keyStatus, clear_state_eq]
  · rw [clearModifiers_keyStatus, clear_state_eq]
  · rw [clearModifiers_keyStatus, clear_state_eq]
  · exact sendAndCheck_out_nil u _ _ hnil

/-- C6: for every binding table in which no note is bound to the Ctrl, Alt or Shift
key (no bound key has the scan code of one of the three, which are three different
keys), and every finite sequence of messages and idle-timer expiries processed from
the initial state, each of `isCtrlDown`, `isAltDown`, `isShiftDown` equals the state
of that modifier on a keyboard that starts with every key up and receives, in order,
all key actions sent so far; and directly after a press event the three flags are
the flags of the binding just pressed. -/
theorem C6_flags_match_keyboard (u : user32) (app : application) (t0 : Nat) (ops : List Op)
    (hdist : scanCode u VK_CONTROL ≠ scanCode u VK_MENU
      ∧ scanCode u VK_CONTROL ≠ scanCode u VK_SHIFT
      ∧ scanCode u VK_MENU ≠ scanCode u VK_SHIFT)
    (hbind : ∀ n : Fin 128,
      scanCode u (app.Keybinding n).VirtualKeyCode.val ≠ scanCode u VK_CONTROL
      ∧ scanCode u (app.Keybinding n).VirtualKeyCode.val ≠ scanCode u VK_MENU
      ∧ scanCode u (app.Keybinding n).VirtualKeyCode.val ≠ scanCode u VK_SHIFT) :
    ((run u app t0 ops).keyStatus.isCtrlDown
        = replay (run u app t0 ops).out.emitted (scanCode u VK_CONTROL)
      ∧ (run u app t0 ops).keyStatus.isAltDown
        = replay (run u app t0 ops).out.emitted (scanCode u VK_MENU)
      ∧ (run u app t0 ops).keyStatus.isShiftDown
        = replay (run u app t0 ops).out.emitted (scanCode u VK_SHIFT))
    ∧ ∀ (n : Fin 128) (now : Nat),
        (run u app t0 (ops ++ [Op.message { status := 0x90, note := n } now])).keyStatus.isCtrlDown
          = (app.Keybinding n).Ctrl
        ∧ (run u app t0
            (ops ++ [Op.message { status := 0x90, note := n } now])).keyStatus.isAltDown
          = (app.Keybinding n).Alt
        ∧ (run u app t0
            (ops ++ [Op.message { status := 0x90, note := n } now])).keyStatus.isShiftDown
          = (app.Keybinding n).Shift :=
  ⟨foldl_step_flagsMatch u app ops (initOutcome app t0) hdist hbind
      (initOutcome_flagsMatch u app t0),
    fun n now => run_press_flags u app t0 ops n now⟩

/-- An instance of C6: with `sampleLetters`, after a press of note 0 (Ctrl+A), its
release and an idle-timer expiry. -/
theorem C6_flags_match_keyboard_witness :
    (scanCode sampleUser32 VK_CONTROL ≠ scanCode sampleUser32 VK_MENU
      ∧ scanCode sampleUser32 VK_CONTROL ≠ scanCode sampleUser32 VK_SHIFT
      ∧ scanCode sampleUser32 VK_MENU ≠ scanCode sampleUser32 VK_SHIFT)
    ∧ (∀ n : Fin 128,
      scanCode sampleUser32 (sampleLetters.Keybinding n).VirtualKeyCode.val
          ≠ scanCode sampleUser32 VK_CONTROL
      ∧ scanCode sampleUser32 (sampleLetters.Keybinding n).VirtualKeyCode.val
          ≠ scanCode sampleUser32 VK_MENU
      ∧ scanCode sampleUser32 (sampleLetters.Keybinding n).VirtualKeyCode.val
          ≠ scanCode sampleUser32 VK_SHIFT)
    ∧ (run sampleUser32 sampleLetters 0
          [Op.message { status := 0x90, note := 0 } 10,
            Op.message { status := 0x80, note := 0 } 20, Op.expiry]).keyStatus.isCtrlDown
        = replay (run sampleUser32 sampleLetters 0
          [Op.message { status := 0x90, note := 0 } 10,
            Op.message { status := 0x80, note := 0 } 20, Op.expiry]).out.emitted
          (scanCode sampleUser32 VK_CONTROL) :=
  ⟨by decide, by decide,
    (C6_flags_match_keyboard sampleUser32 sampleLetters 0
      [Op.message { status := 0x90, note := 0 } 10,
        Op.message { status := 0x80, note := 0 } 20, Op.expiry]
      (by decide) (by decide)).1.1⟩

/-- C7: for every list of actions built by `produceKeystroke` or `clearModifiers`
and whatever errors `SendInput` returns, `SendInput` is called once per action, each
call with that single action, in the order of the list; and the list built, the
resulting key state and the outcome of the consistency check are those obtained
with a `SendInput` that never fails. -/
theorem C7_send_once_per_action (m : Nat → Nat → Nat)
    (f : List (List INPUT_KEYBDINPUT) → List INPUT_KEYBDINPUT → Option String)
    (app : application) (now : Nat) (out : Output) (s : keystrokeStatus) (note : midiMessage) :
    (produceKeystroke { MapVirtualKey := m, SendInput := f } app now out s note).out.calls
        = out.calls
          ++ (produceKeystrokeInputs { MapVirtualKey := m, SendInput := f } app now s note).2.map
              (fun a => [a])
    ∧ (clearModifiers { MapVirtualKey := m, SendInput := f } out s).out.calls
        = out.calls
          ++ (clearModifiersInputs { MapVirtualKey := m, SendInput := f } s).2.map (fun a => [a])
    ∧ produceKeystrokeInputs { MapVirtualKey := m, SendInput := f } app now s note
        = produceKeystrokeInputs { MapVirtualKey := m, SendInput := fun _ _ => none } app now s note
    ∧ clearModifiersInputs { MapVirtualKey := m, SendInput := f } s
        = clearModifiersInputs { MapVirtualKey := m, SendInput := fun _ _ => none } s
    ∧ (produceKeystroke { MapVirtualKey := m, SendInput := f } app now out s note).keyStatus
        = (produceKeystroke { MapVirtualKey := m, SendInput := fun _ _ => none }
            app now out s note).keyStatus
    ∧ (produceKeystroke { MapVirtualKey := m, SendInput := f } app now out s note).result
        = (produceKeystroke { MapVirtualKey := m, SendInput := fun _ _ => none }
            app now out s note).result
    ∧ (clearModifiers { MapVirtualKey := m, SendInput := f } out s).keyStatus
        = (clearModifiers { MapVirtualKey := m, SendInput := fun _ _ => none } out s).keyStatus
    ∧ (clearModifiers { MapVirtualKey := m, SendInput := f } out s).result
        = (clearModifiers { MapVirtualKey := m, SendInput := fun _ _ => none } out s).result := by
  have e1 : produceKeystrokeInputs { MapVirtualKey := m, SendInput := f } app now s note
      = produceKeystrokeInputs { MapVirtualKey := m, SendInput := fun _ _ => none }
          app now s note := rfl
  have e2 : clearModifiersInputs { MapVirtualKey := m, SendInput := f } s
      = clearModifiersInputs { MapVirtualKey := m, SendInput := fun _ _ => none } s := rfl
  refine ⟨produceKeystroke_calls _ app now out s note, clearModifiers_calls _ out s, e1, e2,
    ?_, ?_, ?_, ?_⟩
  · rw [produceKeystroke_keyStatus, produceKeystroke_keyStatus, e1]
  · unfold produceKeystroke
    rw [sendAndCheck_result, sendAndCheck_result, e1]
  · rw [clearModifiers_keyStatus, clearModifiers_keyStatus, e2]
  · unfold clearModifiers
    rw [sendAndCheck_result, sendAndCheck_result, e2]

/-- C8, as stated, fails: in the initial state of `sampleApp` created at time 0 (timer
armed for time 1000, no key pressed, count 0), a release event for note 0 at time 500
finds the bound key not pressed, leaves `pressedKeysCount` at 0, and still resets
the timer: its deadline moves from 1000 to 1500. -/
theorem C8_counterexample :
    (initKeyStatus sampleApp 0).pressedKeys (sampleApp.Keybinding 0).VirtualKeyCode = false
    ∧ (initKeyStatus sampleApp 0).pressedKeysCount = 0
    ∧ (produceKeystroke sampleUser32 sampleApp 500 { calls := [], errors := [] }
          (initKeyStatus sampleApp 0) { status := 0x80, note := 0 }).keyStatus.pressedKeysCount = 0
    ∧ (initKeyStatus sampleApp 0).clearModifiersTimer.deadline = some 1000
    ∧ (produceKeystroke sampleUser32 sampleApp 500 { calls := [], errors := [] }
          (initKeyStatus sampleApp 0)
          { status := 0x80, note := 0 }).keyStatus.clearModifiersTimer.deadline = some 1500
    ∧ (produceKeystroke sampleUser32 sampleApp 500 { calls := [], errors := [] }
          (initKeyStatus sampleApp 0) { status := 0x80, note := 0 }).keyStatus.clearModifiersTimer
        ≠ (initKeyStatus sampleApp 0).clearModifiersTimer := by
  decide

/-- C8, amended: a release event (status 0x80) for a note whose bound key is not
marked pressed builds and sends no action, returns without the consistency check,
and leaves `pressedKeys`, `pressedKeysCount` and the three modifier flags as they
were; the idle timer is reset to the idle duration from now when `pressedKeysCount`
is 0 (although the event changed nothing), and is left as it was otherwise. -/
theorem C8_release_not_held (u : user32) (app : application) (now : Nat) (out : Output)
    (s : keystrokeStatus) (n : Fin 128)
    (hp : s.pressedKeys (app.Keybinding n).VirtualKeyCode = false) :
    (produceKeystrokeInputs u app now s { status := 0x80, note := n }).2 = []
    ∧ (produceKeystroke u app now out s { status := 0x80, note := n }).out = out
    ∧ (produceKeystroke u app now out s { status := 0x80, note := n }).result = Except.ok ()
    ∧ (produceKeystroke u app now out s { status := 0x80, note := n }).keyStatus.pressedKeys
        = s.pressedKeys
    ∧ (produceKeystroke u app now out s { status := 0x80, note := n }).keyStatus.pressedKeysCount
        = s.pressedKeysCount
    ∧ (produceKeystroke u app now out s { status := 0x80, note := n }).keyStatus.isCtrlDown
        = s.isCtrlDown
    ∧ (produceKeystroke u app now out s { status := 0x80, note := n }).keyStatus.isAltDown
        = s.isAltDown
    ∧ (produceKeystroke u app now out s { status := 0x80, note := n }).keyStatus.isShiftDown
        = s.isShiftDown
    ∧ (produceKeystroke u app now out s
          { status := 0x80, note := n }).keyStatus.clearModifiersTimer
        = if s.pressedKeysCount = 0 then { deadline := some (now + app.IdleDuration) }
          else s.clearModifiersTimer := by
  have hl := release_inputs_eq u app now s { status := 0x80, note := n } rfl
  have hst := release_state_eq u app now s { status := 0x80, note := n } rfl
  simp only [hp, Bool.false_eq_true, if_false] at hl hst
  refine ⟨hl, ?_, ?_, ?_, ?_, ?_, ?_, ?_, ?_⟩
  · exact sendAndCheck_out_nil u out _ hl
  · unfold produceKeystroke
    rw [sendAndCheck_result, hl]
    rfl
  · rw [produceKeystroke_keyStatus, hst]
  · rw [produceKeystroke_keyStatus, hst]
  · rw [produceKeystroke_keyStatus, hst]
  · rw [produceKeystroke_keyStatus, hst]
  · rw [produceKeystroke_keyStatus, hst]
  · rw [produceKeystroke_keyStatus, hst]

/-- An instance of C8 as amended: a release of note 0 of `sampleApp` in the initial
state. -/
theorem C8_release_not_held_witness :
    (initKeyStatus sampleApp 0).pressedKeys (sampleApp.Keybinding 0).VirtualKeyCode = false
    ∧ (produceKeystroke sampleUser32 sampleApp 500 { calls := [], errors := [] }
          (initKeyStatus sampleApp 0) { status := 0x80, note := 0 }).out
        = { calls := [], errors := [] }
    ∧ (produceKeystroke sampleUser32 sampleApp 500 { calls := [], errors := [] }
          (initKeyStatus sampleApp 0) { status := 0x80, note := 0 }).result = Except.ok () :=
  ⟨by decide,
    (C8_release_not_held sampleUser32 sampleApp 500 { calls := [], errors := [] }
      (initKeyStatus sampleApp 0) 0 (by decide)).2.1,
    (C8_release_not_held sampleUser32 sampleApp 500 { calls := [], errors := [] }
      (initKeyStatus sampleApp 0) 0 (by decide)).2.2.1⟩

/-- C9, as stated, fails: in `sampleBroken` (no key marked pressed, count 5) a release
event for note 0 leaves the count at 5 with no true entry in `pressedKeys`, builds
no action, and returns normally: the consistency check is not run. -/
theorem C9_counterexample :
    (produceKeystrokeInputs sampleUser32 sampleApp 3 sampleBroken
        { status := 0x80, note := 0 }).1.pressedKeysCount = 5
    ∧ pressedCard (produceKeystrokeInputs sampleUser32 sampleApp 3 sampleBroken
        { status := 0x80, note := 0 }).1.pressedKeys = 0
    ∧ ¬ Consistent (produceKeystrokeInputs sampleUser32 sampleApp 3 sampleBroken
        { status := 0x80, note := 0 }).1
    ∧ (produceKeystroke sampleUser32 sampleApp 3 { calls := [], errors := [] } sampleBroken
        { status := 0x80, note := 0 }).result = Except.ok () := by
  have hk : (produceKeystrokeInputs sampleUser32 sampleApp 3 sampleBroken
      { status := 0x80, note := 0 }).1.pressedKeys = fun _ => false := rfl
  have hc : (produceKeystrokeInputs sampleUser32 sampleApp 3 sampleBroken
      { status := 0x80, note := 0 }).1.pressedKeysCount = 5 := by decide
  refine ⟨hc, ?_, ?_, rfl⟩
  · rw [hk]
    exact pressedCard_none
  · unfold Consistent
    rw [hk, hc, pressedCard_none]
    decide

/-- C9, amended: for every key state, consistent or not, and every press event, and
every release event whose bound key is marked pressed (the events that build at
least one action), if after the state update `pressedKeysCount` differs from the
number of true entries of `pressedKeys`, processing ends in the panic of
`printPressedKeys`, which reports the two numbers; and `printPressedKeys` panics
if and only if the two numbers differ. -/
theorem C9_check_when_sent (u : user32) (app : application) (now : Nat) (out : Output)
    (s : keystrokeStatus) (note : midiMessage)
    (hsent : note.status = 0x90
      ∨ (note.status = 0x80 ∧ s.pressedKeys (app.Keybinding note.note).VirtualKeyCode = true))
    (hbad : (produceKeystrokeInputs u app now s note).1.pressedKeysCount
      ≠ ((Finset.univ.filter (fun k =>
          (produceKeystrokeInputs u app now s note).1.pressedKeys k = true)).card : Int)) :
    (produceKeystroke u app now out s note).result
        = Except.error
            { counted := ((Finset.univ.filter (fun k =>
                (produceKeystrokeInputs u app now s note).1.pressedKeys k = true)).card : Int)
              recorded := (produceKeystrokeInputs u app now s note).1.pressedKeysCount }
    ∧ ∀ s2 : keystrokeStatus,
        (∃ e, printPressedKeys s2 = Except.error e)
          ↔ s2.pressedKeysCount
              ≠ ((Finset.univ.filter (fun k => s2.pressedKeys k = true)).card : Int) := by
  refine ⟨?_, fun s2 => printPressedKeys_error_iff s2⟩
  have hne : (produceKeystrokeInputs u app now s note).2 ≠ [] := by
    rcases hsent with h90 | ⟨h80, hp⟩
    · rw [press_inputs_eq u app now s note h90]
      simp
    · rw [release_inputs_eq u app now s note h80, hp]
      simp
  unfold produceKeystroke
  rw [sendAndCheck_result, if_neg hne]
  exact printPressedKeys_error _ hbad

/-- An instance of C9 as amended: a press of note 0 of `sampleApp` in `sampleBroken`
leaves the count at 6 with one key marked pressed. -/
theorem C9_check_when_sent_witness :
    (({ status := 0x90, note := 0 } : midiMessage).status = 0x90
      ∨ (({ status := 0x90, note := 0 } : midiMessage).status = 0x80
        ∧ sampleBroken.pressedKeys
          (sampleApp.Keybinding ({ status := 0x90, note := 0 } : midiMessage).note).VirtualKeyCode
            = true))
    ∧ (produceKeystrokeInputs sampleUser32 sampleApp 3 sampleBroken
          { status := 0x90, note := 0 }).1.pressedKeysCount
        ≠ ((Finset.univ.filter (fun k =>
            (produceKeystrokeInputs sampleUser32 sampleApp 3 sampleBroken
              { status := 0x90, note := 0 }).1.pressedKeys k = true)).card : Int)
    ∧ (produceKeystroke sampleUser32 sampleApp 3 { calls := [], errors := [] } sampleBroken
          { status := 0x90, note := 0 }).result
        = Except.error
            { counted := ((Finset.univ.filter (fun k =>
                (produceKeystrokeInputs sampleUser32 sampleApp 3 sampleBroken
                  { status := 0x90, note := 0 }).1.pressedKeys k = true)).card : Int)
              recorded := (produceKeystrokeInputs sampleUser32 sampleApp 3 sampleBroken
                  { status := 0x90, note := 0 }).1.pressedKeysCount } := by
  have hbad : (produceKeystrokeInputs sampleUser32 sampleApp 3 sampleBroken
        { status := 0x90, note := 0 }).1.pressedKeysCount
      ≠ ((Finset.univ.filter (fun k =>
          (produceKeystrokeInputs sampleUser32 sampleApp 3 sampleBroken
            { status := 0x90, note := 0 }).1.pressedKeys k = true)).card : Int) := by
    have hc : (produceKeystrokeInputs sampleUser32 sampleApp 3 sampleBroken
        { status := 0x90, note := 0 }).1.pressedKeysCount = 6 := by decide
    have hk : (produceKeystrokeInputs sampleUser32 sampleApp 3 sampleBroken
        { status := 0x90, note := 0 }).1.pressedKeys
        = Function.update (fun _ => false) 0x41 true := by
      rw [press_state_eq sampleUser32 sampleApp 3 sampleBroken { status := 0x90, note := 0 } rfl]
      rfl
    have hcard := pressedCard_update_true (fun _ => false) 0x41
    rw [pressedCard_none] at hcard
    unfold pressedCard at hcard
    rw [hc, hk, hcard]
    decide
  exact ⟨Or.inl rfl, hbad,
    (C9_check_when_sent sampleUser32 sampleApp 3 { calls := [], errors := [] } sampleBroken
      { status := 0x90, note := 0 } (Or.inl rfl) hbad).1⟩

/-- C10: for the PUT handlers `midiOutputBank`, `midiOutputPatch` and
`midiOutputTranspose`, with `strconv` meeting its contract at the bit sizes 1 to
64 (the handlers pass 14, 7 and 8), and every request body:
when the body is not an integer literal within the range of the handler (bank
0..16383, patch 0..127, transpose -128..127), the reply has status 400 and no
closure is submitted to the actor; when it is one, the setter closure is submitted
with exactly that value, followed only by the closure that reads the stored value
back for the reply (in `midiOutputTranspose`, only when the first submission did
not fail). -/
theorem C10_put_validation (litU : String → Option Nat) (litI : String → Option Int)
    (sc : strconv) (Submit : List Task → Task → Option String) (body : String) (q : List Task)
    (hsc : StrconvContract litU litI sc) :
    ((¬ ∃ v, litU body = some v ∧ v ≤ 16383) →
        (midiOutputBank sc { Method := "PUT", Body := Except.ok body } q).1.status = 400
        ∧ (midiOutputBank sc { Method := "PUT", Body := Except.ok body } q).2 = q)
    ∧ (∀ v, litU body = some v → v ≤ 16383 →
        (midiOutputBank sc { Method := "PUT", Body := Except.ok body } q).2
          = q ++ [Task.setMidiOutBank v, Task.readMidiOutBank])
    ∧ ((¬ ∃ v, litU body = some v ∧ v ≤ 127) →
        (midiOutputPatch sc { Method := "PUT", Body := Except.ok body } q).1.status = 400
        ∧ (midiOutputPatch sc { Method := "PUT", Body := Except.ok body } q).2 = q)
    ∧ (∀ v, litU body = some v → v ≤ 127 →
        (midiOutputPatch sc { Method := "PUT", Body := Except.ok body } q).2
          = q ++ [Task.setMidiOutPatch v, Task.readMidiOutPatch])
    ∧ ((¬ ∃ v, litI body = some v ∧ -128 ≤ v ∧ v ≤ 127) →
        (midiOutputTranspose sc Submit { Method := "PUT", Body := Except.ok body } q).1.status
          = 400
        ∧ (midiOutputTranspose sc Submit { Method := "PUT", Body := Except.ok body } q).2 = q)
    ∧ (∀ v, litI body = some v → -128 ≤ v → v ≤ 127 →
        (midiOutputTranspose sc Submit { Method := "PUT", Body := Except.ok body } q).2
          = q ++ Task.setMidiOutTranspose v
              :: (if (Submit q (Task.setMidiOutTranspose v)).isSome then []
                  else [Task.readMidiOutTranspose])) := by
  obtain ⟨hU, hI⟩ := hsc
  refine ⟨?_, ?_, ?_, ?_, ?_, ?_⟩
  · intro hno
    simp only [midiOutputBank, if_true]
    cases hparse : sc.ParseUint body 0 14 with
    | error err => exact ⟨rfl, rfl⟩
    | ok value =>
      have hv := (hU body 14 value (by norm_num) (by norm_num)).mp hparse
      exact absurd ⟨value, hv.1, by have := hv.2; norm_num at this; omega⟩ hno
  · intro v hlit hle
    have hparse : sc.ParseUint body 0 14 = Except.ok v :=
      (hU body 14 v (by norm_num) (by norm_num)).mpr ⟨hlit, by norm_num; omega⟩
    have hmod : v % 65536 = v := Nat.mod_eq_of_lt (by omega)
    simp [midiOutputBank, hparse, hmod]
  · intro hno
    simp only [midiOutputPatch, if_true]
    cases hparse : sc.ParseUint body 0 7 with
    | error err => exact ⟨rfl, rfl⟩
    | ok value =>
      have hv := (hU body 7 value (by norm_num) (by norm_num)).mp hparse
      exact absurd ⟨value, hv.1, by have := hv.2; norm_num at this; omega⟩ hno
  · intro v hlit hle
    have hparse : sc.ParseUint body 0 7 = Except.ok v :=
      (hU body 7 v (by norm_num) (by norm_num)).mpr ⟨hlit, by norm_num; omega⟩
    have hmod : v % 256 = v := Nat.mod_eq_of_lt (by omega)
    simp [midiOutputPatch, hparse, hmod]
  · intro hno
    simp only [midiOutputTranspose, if_true]
    cases hparse : sc.ParseInt body 0 8 with
    | error err => exact ⟨rfl, rfl⟩
    | ok value =>
      have hv := (hI body 8 value (by norm_num) (by norm_num)).mp hparse
      exact absurd ⟨value, hv.1, by have := hv.2; norm_num at this; omega⟩ hno
  · intro v hlit hlo hhi
    have hparse : sc.ParseInt body 0 8 = Except.ok v :=
      (hI body 8 v (by norm_num) (by norm_num)).mpr ⟨hlit, by norm_num; omega⟩
    have hwrap : wrapInt v = v := wrapInt_of_isGoInt (by unfold isGoInt; omega)
    simp only [midiOutputTranspose, if_true, hparse, hwrap]
    cases hsub : Submit q (Task.setMidiOutTranspose v) with
    | none => simp
    | some err => simp

/-- An instance of C10 with the parser `strconvOf sampleLitU sampleLitI`: the body
"20000" is refused by `midiOutputBank`, the body "0x3FFF" sets the bank 16383. -/
theorem C10_put_validation_witness :
    StrconvContract sampleLitU sampleLitI (strconvOf sampleLitU sampleLitI)
    ∧ ((midiOutputBank (strconvOf sampleLitU sampleLitI)
          { Method := "PUT", Body := Except.ok "20000" } []).1.status = 400
        ∧ (midiOutputBank (strconvOf sampleLitU sampleLitI)
          { Method := "PUT", Body := Except.ok "20000" } []).2 = [])
    ∧ (midiOutputBank (strconvOf sampleLitU sampleLitI)
          { Method := "PUT", Body := Except.ok "0x3FFF" } []).2
        = [] ++ [Task.setMidiOutBank 16383, Task.readMidiOutBank] :=
  ⟨strconvOf_contract sampleLitU sampleLitI,
    (C10_put_validation sampleLitU sampleLitI (strconvOf sampleLitU sampleLitI)
      (fun _ _ => none) "20000" [] (strconvOf_contract sampleLitU sampleLitI)).1
      (by
        rintro ⟨v, hv, hle⟩
        have h20 : sampleLitU "20000" = some 20000 := by decide
        rw [h20] at hv
        cases hv
        omega),
    (C10_put_validation sampleLitU sampleLitI (strconvOf sampleLitU sampleLitI)
      (fun _ _ => none) "0x3FFF" [] (strconvOf_contract sampleLitU sampleLitI)).2.1
      16383 (by decide) (by decide)⟩

/-- C11: in the step relation of the loop (the timer armed at the start, disarmed by
a press event, armed by a release event when `pressedKeysCount` is 0 afterwards, an
expiry possible only when armed and disarming it), every state reachable from the
initial state with the timer armed has `pressedKeysCount = 0`, and no entry of
`pressedKeys` is true: an expiry, which needs the timer armed, never runs while a
bound key is held. -/
theorem C11_armed_implies_no_key_held (u : user32) (app : application) (t0 : Nat)
    (sys : Outcome) (hreach : Reachable u app t0 sys)
    (harmed : armed sys.keyStatus = true) :
    sys.keyStatus.pressedKeysCount = 0
    ∧ ∀ k : Fin 256, sys.keyStatus.pressedKeys k = false := by
  obtain ⟨⟨hcons, _⟩, hidle, _⟩ := reachable_inv u app t0 sys hreach
  have h0 := hidle harmed
  refine ⟨h0, ?_⟩
  unfold Consistent at hcons
  have hcard : pressedCard sys.keyStatus.pressedKeys = 0 := by omega
  exact pressedCard_zero hcard

/-- An instance of C11: `sampleRearmed`, reached by a press of Ctrl+A, its release,
the expiry of the idle timer and a release event for a note whose key is not
pressed, which arms the timer again. -/
theorem C11_armed_implies_no_key_held_witness :
    Reachable sampleUser32 sampleLetters 0 sampleRearmed
    ∧ armed sampleRearmed.keyStatus = true
    ∧ sampleRearmed.keyStatus.pressedKeysCount = 0
    ∧ ∀ k : Fin 256, sampleRearmed.keyStatus.pressedKeys k = false :=
  ⟨sampleRearmed_reachable, sampleRearmed_armed,
    C11_armed_implies_no_key_held sampleUser32 sampleLetters 0 sampleRearmed
      sampleRearmed_reachable sampleRearmed_armed⟩

/-- C12: in the same step relation, every state reachable from the initial state
in which `pressedKeysCount = 0` and at least one of `isCtrlDown`, `isAltDown`,
`isShiftDown` is true has the idle timer armed: a modifier is never left recorded
as held with no key pressed and no idle-release pending. -/
theorem C12_held_modifier_implies_armed (u : user32) (app : application) (t0 : Nat)
    (sys : Outcome) (hreach : Reachable u app t0 sys)
    (hzero : sys.keyStatus.pressedKeysCount = 0)
    (hmod : sys.keyStatus.isCtrlDown = true ∨ sys.keyStatus.isAltDown = true
      ∨ sys.keyStatus.isShiftDown = true) :
    armed sys.keyStatus = true :=
  (reachable_inv u app t0 sys hreach).2.2 hzero hmod

/-- An instance of C12: `sampleIdle`, reached by a press of Ctrl+A and its release,
where Ctrl is still recorded as down and no key is pressed. -/
theorem C12_held_modifier_implies_armed_witness :
    Reachable sampleUser32 sampleLetters 0 sampleIdle
    ∧ sampleIdle.keyStatus.pressedKeysCount = 0
    ∧ (sampleIdle.keyStatus.isCtrlDown = true ∨ sampleIdle.keyStatus.isAltDown = true
      ∨ sampleIdle.keyStatus.isShiftDown = true)
    ∧ armed sampleIdle.keyStatus = true :=
  ⟨sampleIdle_reachable, sampleIdle_state.1, Or.inl sampleIdle_state.2.1,
    C12_held_modifier_implies_armed sampleUser32 sampleLetters 0 sampleIdle
      sampleIdle_reachable sampleIdle_state.1 (Or.inl sampleIdle_state.2.1)⟩

end Midi2ffxiv
